import Mathlib

/-!
Verification of the job orchestration and submission state machine of the
`llm_quiz_generator` repository (`app/workers/runner.py`, `app/storage/jobs.py`).

The Python code is shallowly embedded: JSON values become the inductive `JVal`,
the external collaborators (page renderer, content parser, resource fetcher,
text extractor, answer planner, grading endpoint, wall clock) become an oracle
record `Env` indexed by a call counter ("tick"), and the `while True:` loop of
`run_job` (runner.py lines 201-321) becomes the fuel-indexed recursion
`subLoopF` whose fuel exactly tracks the remaining attempt budget.

Exceptions are modelled with `Except String`; a `.error` value propagates like
an uncaught Python exception.  The interaction of the run with the job store
and with the event loop is recorded as a list of events (`Ev`): one event per
awaited network call (a cooperative suspension point), one per submission POST
performed, and one per job-store write.
-/

/-- JSON values as produced by `json.loads` / consumed by `json.dumps`.
Object member lists keep insertion order, matching Python dicts.
Numbers are modelled as integers: every number this repository ever
serializes in a submission body or stores as a timestamp is treated as an
integer (a faithful treatment of the claims, none of which depend on
fractional values). -/
inductive JVal where
  | null
  | bool (b : Bool)
  | num (n : Int)
  | str (s : String)
  | arr (xs : List JVal)
  | obj (kvs : List (String × JVal))

/-- Python `dict.get(k)` on a JSON object: the first binding of `k`, if any. -/
def jGet (kvs : List (String × JVal)) (k : String) : Option JVal :=
  match kvs.find? (fun kv => kv.1 = k) with
  | some kv => some kv.2
  | none => none

/-- Python `dict.get(k)` returns `None` when the key is absent; as a JSON
value that `None` is `null`. -/
def optToNull (o : Option JVal) : JVal :=
  match o with
  | some v => v
  | none => JVal.null

/-- Python truthiness of a JSON value (`if x:`). -/
def pyTruthy : JVal → Bool
  | .null => false
  | .bool b => b
  | .num n => n ≠ 0
  | .str s => !s.isEmpty
  | .arr xs => !xs.isEmpty
  | .obj kvs => !kvs.isEmpty

/-- Python truthiness of an optional string (`None` and `""` are falsy). -/
def truthyS : Option String → Bool
  | none => false
  | some s => !s.isEmpty

/-- Python `x or d` for an optional string `x` and default `d`
(used for `itype or "bin"`, `itype or "error"`, `itype or "unknown"`). -/
def pyOrS (o : Option String) (d : String) : String :=
  match o with
  | some s => if s.isEmpty then d else s
  | none => d

/-- Hex digit (lowercase), for `\uXXXX` escapes emitted by `json.dumps`. -/
def hexDigit (n : Nat) : Char :=
  if n < 10 then Char.ofNat (48 + n) else Char.ofNat (87 + n)

/-- Escape of one character inside a JSON string literal, as `json.dumps`
with `ensure_ascii=False` performs it: `"` and `\` are backslash-escaped,
the common control characters get their short escapes, other control
characters become `\u00xx`, and everything else (including non-ASCII)
passes through unchanged. -/
def jsonEscChar (c : Char) : List Char :=
  if c = '"' then ['\\', '"']
  else if c = '\\' then ['\\', '\\']
  else if c = '\n' then ['\\', 'n']
  else if c = '\r' then ['\\', 'r']
  else if c = '\t' then ['\\', 't']
  else if c.val = 8 then ['\\', 'b']
  else if c.val = 12 then ['\\', 'f']
  else if c.val < 32 then
    ['\\', 'u', '0', '0', hexDigit (c.toNat / 16), hexDigit (c.toNat % 16)]
  else [c]

/-- Escape a whole string for a JSON string literal. -/
def jsonEsc (s : String) : String :=
  String.mk (s.data.flatMap jsonEscChar)

mutual
/-- `json.dumps(v, ensure_ascii=False)` with Python's default separators
`", "` and `": "`. -/
def dumpJ : JVal → String
  | .null => "null"
  | .bool true => "true"
  | .bool false => "false"
  | .num n => toString n
  | .str s => "\"" ++ jsonEsc s ++ "\""
  | .arr xs => "[" ++ dumpArr xs ++ "]"
  | .obj kvs => "\x7b" ++ dumpObj kvs ++ "\x7d"

/-- Serialize array elements, separated by `", "`. -/
def dumpArr : List JVal → String
  | [] => ""
  | [x] => dumpJ x
  | x :: y :: rest => dumpJ x ++ ", " ++ dumpArr (y :: rest)

/-- Serialize object members, separated by `", "`, each as `"key": value`. -/
def dumpObj : List (String × JVal) → String
  | [] => ""
  | [kv] => "\"" ++ jsonEsc kv.1 ++ "\": " ++ dumpJ kv.2
  | kv :: kv2 :: rest =>
      "\"" ++ jsonEsc kv.1 ++ "\": " ++ dumpJ kv.2 ++ ", " ++ dumpObj (kv2 :: rest)
end

/-- UTF-8 byte length of a string (`len(s.encode("utf-8"))`). -/
def utf8Len (s : String) : Nat :=
  (s.data.map Char.utf8Size).sum

mutual
/-- Python `repr` of a JSON value, which `str()` falls back to for
containers.  String `repr` is modelled for the claim-relevant fragment
(single quotes around the raw characters); the full Python quote-choice
and control-character escaping rules are not needed by any claim. -/
def pyRepr : JVal → String
  | .null => "None"
  | .bool true => "True"
  | .bool false => "False"
  | .num n => toString n
  | .str s => "\x27" ++ s ++ "\x27"
  | .arr xs => "[" ++ pyReprArr xs ++ "]"
  | .obj kvs => "\x7b" ++ pyReprObj kvs ++ "\x7d"

/-- Elements of a list `repr`, separated by `", "`. -/
def pyReprArr : List JVal → String
  | [] => ""
  | [x] => pyRepr x
  | x :: y :: rest => pyRepr x ++ ", " ++ pyReprArr (y :: rest)

/-- Members of a dict `repr`, separated by `", "`. -/
def pyReprObj : List (String × JVal) → String
  | [] => ""
  | [kv] => "\x27" ++ kv.1 ++ "\x27: " ++ pyRepr kv.2
  | kv :: kv2 :: rest =>
      "\x27" ++ kv.1 ++ "\x27: " ++ pyRepr kv.2 ++ ", " ++ pyReprObj (kv2 :: rest)
end

/-- Python `str()` of a JSON value, as used by f-string interpolation:
strings pass through, `None`/`True`/`False` print their Python names,
numbers print their decimal form, containers fall back to `repr`. -/
def pyStr : JVal → String
  | .null => "None"
  | .bool true => "True"
  | .bool false => "False"
  | .num n => toString n
  | .str s => s
  | .arr xs => pyRepr (.arr xs)
  | .obj kvs => pyRepr (.obj kvs)

/-- Python `s[:n]`: the first `n` code points of `s`. -/
def pyTake (s : String) (n : Nat) : String :=
  String.mk (s.data.take n)

/-- The `_truncate_for_prompt` helper (runner.py lines 45-49): serialize and
truncate to at most `maxChars` code points. -/
def truncate_for_prompt (obj : JVal) (maxChars : Nat) : String :=
  let j := dumpJ obj
  if j.length ≤ maxChars then j else pyTake j maxChars

/-- The `make_submission_body` closure (runner.py lines 185-191). -/
def make_submission_body (email secret : JVal) (sourceUrl : JVal) (answer : JVal) : JVal :=
  JVal.obj [("email", email), ("secret", secret), ("url", sourceUrl), ("answer", answer)]

/-- The `payload_size_ok` closure (runner.py lines 193-195):
the UTF-8 byte length of the serialized body must be strictly below 1,000,000. -/
def payload_size_ok (obj : JVal) : Bool :=
  utf8Len (dumpJ obj) < 1000000

/-! ## Job store (`app/storage/jobs.py`) -/

/-- One record of `JOB_STORE`: the dict created by `create_job`
(jobs.py lines 7-14), with its five keys as fields. -/
structure JobRec where
  status : String
  createdAt : Int
  payload : JVal
  result : Option JVal
  updatedAt : Int

/-- The in-memory `JOB_STORE` dict, keyed by job id. -/
abbrev Store := List (String × JobRec)

/-- Python `JOB_STORE[job_id] = rec`: replace the binding if the key exists,
append it otherwise. -/
def storeSet (s : Store) (k : String) (r : JobRec) : Store :=
  match s with
  | [] => [(k, r)]
  | (k', r') :: rest => if k' = k then (k, r) :: rest else (k', r') :: storeSet rest k r

/-- `get_job` (jobs.py lines 26-27): `JOB_STORE.get(job_id)`. -/
def get_job (s : Store) (k : String) : Option JobRec :=
  match s.find? (fun kv => kv.1 = k) with
  | some kv => some kv.2
  | none => none

/-- `create_job` (jobs.py lines 7-14).  The two timestamp parameters mirror
the two separate `time.time()` calls for `created_at` and `updated_at`. -/
def create_job (s : Store) (jobId : String) (payload : JVal) (tCreated tUpdated : Int) : Store :=
  storeSet s jobId ⟨"queued", tCreated, payload, none, tUpdated⟩

/-- `set_job_status` (jobs.py lines 16-19): update status and `updated_at`
if the id is known, no-op otherwise. -/
def set_job_status (s : Store) (jobId : String) (status : String) (t : Int) : Store :=
  match get_job s jobId with
  | some r => storeSet s jobId { r with status := status, updatedAt := t }
  | none => s

/-- `set_job_result` (jobs.py lines 21-24): update result and `updated_at`
if the id is known, no-op otherwise. -/
def set_job_result (s : Store) (jobId : String) (result : JVal) (t : Int) : Store :=
  match get_job s jobId with
  | some r => storeSet s jobId { r with result := some result, updatedAt := t }
  | none => s

/-! ## Collaborator interfaces consumed by `run_job` -/

/-- The return value of `parse_quiz_page` (parser.py lines 162-166):
always a dict with exactly the keys `question_text` (a string),
`submit_url` (a string or `None`) and `resources` (a list, carried
opaquely since `run_job` only threads it through to the result). -/
structure Parsed where
  questionText : String
  submitUrl : Option String
  resources : JVal

/-- The parse result as the JSON dict the Python code stores in `result`. -/
def Parsed.toJ (p : Parsed) : JVal :=
  JVal.obj [("question_text", JVal.str p.questionText),
            ("submit_url", match p.submitUrl with | some s => JVal.str s | none => JVal.null),
            ("resources", p.resources)]

/-- One value of the dict returned by `fetch_resources` (fetcher.py):
`info.get("type")`, `info.get("path")` and `info.get("url")` as read by
the runner's extraction loop; a `none` field models an absent key. -/
structure ResInfo where
  rtype : Option String
  path : Option String
  rurl : Option String

/-- A fetched-resource record as the JSON dict stored in `result`. -/
def ResInfo.toJ (r : ResInfo) : JVal :=
  JVal.obj ((match r.rtype with | some t => [("type", JVal.str t)] | none => []) ++
            (match r.path with | some p => [("path", JVal.str p)] | none => []) ++
            (match r.rurl with | some u => [("url", JVal.str u)] | none => []))

/-- The whole `resources` dict as JSON. -/
def resourcesToJ (res : List (String × ResInfo)) : JVal :=
  JVal.obj (res.map (fun kv => (kv.1, kv.2.toJ)))

/-- A grading-endpoint HTTP response: `json` is the value `resp.json()`
parses to (`none` when it raises, i.e. the body is not JSON), `text` is
`resp.text`. -/
structure PostResp where
  json : Option JVal
  text : String

/-- The external collaborators of `run_job`, as oracles indexed by a call
counter ("tick") so that successive calls may behave differently:
`render` is `load_page_html`, `parse` is `parse_quiz_page` (total - the
spec gives it no failure path), `fetch` is `fetch_resources`,
`extractPdf` is `extract_pdf_text`, `readText`/`readB64` are the
`open().read()` branches of the extraction loop, `llm` is `_call_llm`
after its internal JSON handling (raises become `.error`), `post` is
`httpx` POST to the grader, and `time` is `time.time()`. -/
structure Env where
  render : Nat → JVal → Except String String
  parse : String → JVal → Parsed
  fetch : Nat → Parsed → JVal → Except String (List (String × ResInfo))
  extractPdf : Nat → String → Except String String
  readText : Nat → String → Except String String
  readB64 : Nat → String → Except String String
  llm : Nat → String → Except String JVal
  post : Nat → String → JVal → Except String PostResp
  time : Nat → Int

/-! ## Per-resource text extraction (runner.py lines 123-142, duplicated
verbatim for chained pages at lines 252-268) -/

/-- The error entry written by the per-resource `except` clause
(runner.py line 142): note the `type` field is `itype or "error"`. -/
def errEntry (itype : Option String) (e : String) : JVal :=
  JVal.obj [("type", JVal.str (pyOrS itype "error")), ("error", JVal.str e)]

/-- The body of the extraction `for` loop for one resource
(runner.py lines 125-142): each branch of the `try` that performs I/O
consumes one oracle tick; a raise is caught and recorded as `errEntry`. -/
def extractOne (env : Env) (tick : Nat) (info : ResInfo) : JVal × Nat :=
  let itype := info.rtype
  let path := info.path
  if itype == some "pdf" && truthyS path then
    match env.extractPdf tick (path.getD "") with
    | .ok txt => (JVal.obj [("type", JVal.str "pdf"), ("text", JVal.str txt)], tick + 1)
    | .error e => (errEntry itype e, tick + 1)
  else if (itype == some "txt" || itype == some "csv") && truthyS path then
    match env.readText tick (path.getD "") with
    | .ok t => (JVal.obj [("type", JVal.str (itype.getD "")), ("text", JVal.str t)], tick + 1)
    | .error e => (errEntry itype e, tick + 1)
  else if truthyS path then
    match env.readB64 tick (path.getD "") with
    | .ok b => (JVal.obj [("type", JVal.str (pyOrS itype "bin")), ("b64", JVal.str b)], tick + 1)
    | .error e => (errEntry itype e, tick + 1)
  else
    (JVal.obj [("type", JVal.str (pyOrS itype "unknown")),
               ("url", match info.rurl with | some u => JVal.str u | none => JVal.null)], tick)

/-- The whole extraction loop: one entry per fetched resource, in order.
(`resources or {}` coincides with `resources` on dicts, which is what
`fetch_resources` returns.) -/
def extractAll (env : Env) (tick : Nat) : List (String × ResInfo) → List (String × JVal) × Nat
  | [] => ([], tick)
  | (rid, info) :: rest =>
    let e := extractOne env tick info
    let r := extractAll env e.2 rest
    ((rid, e.1) :: r.1, r.2)

/-! ## The three planner prompts (runner.py lines 148-166, 271-280, 299-310) -/

/-- The initial planning prompt f-string (runner.py lines 148-166). -/
def mainPrompt (questionText : String) (extracted : List (String × JVal)) : String :=
  "\nYou are an expert data analysis assistant. You will be given a quiz question and extracted resource contents (PDF/CSV/text).\nTask: Understand the question, perform any necessary data processing, and RETURN ONLY a single JSON object appropriate for submission.\n\nImportant:\n- Use only the provided extracted resources (do NOT invent data).\n- If the answer is numeric, compute carefully and double-check your math.\n- Match the JSON structure required by the quiz instructions if shown on the page.\n- Output must be valid JSON (e.g. \x7b \"answer\": ... \x7d or other JSON where the main answer appears under the \x27answer\x27 field if the quiz\x27s JSON shows that).\n- Do not include any extra text.\n\nQUESTION:\n"
  ++ questionText
  ++ "\n\nRESOURCES (truncated):\n"
  ++ truncate_for_prompt (JVal.obj extracted) 15000
  ++ "\n\nReturn only valid JSON now.\n"

/-- The follow-up (chained page) prompt f-string (runner.py lines 271-280). -/
def followPrompt (sourceUrl : JVal) (questionText : String) (extracted : List (String × JVal)) : String :=
  "\nYou are an expert data analysis assistant. This is a FOLLOW-UP quiz at "
  ++ pyStr sourceUrl
  ++ ".\nUse the question and the extracted resources below and return only a JSON object appropriate for submission.\n\nQUESTION:\n"
  ++ questionText
  ++ "\n\nRESOURCES:\n"
  ++ truncate_for_prompt (JVal.obj extracted) 15000
  ++ "\n"

/-- The refinement prompt f-string (runner.py lines 299-310); `reason` is
interpolated with `str()`, so an absent reason prints as `None`. -/
def refinePrompt (reason : JVal) (questionText : String) (extracted : List (String × JVal)) : String :=
  "\nThe grader rejected the previous answer for this quiz (reason: "
  ++ pyStr reason
  ++ ").\nPlease re-compute the correct answer for the following quiz and return only JSON appropriate for submission.\n\nQUESTION:\n"
  ++ questionText
  ++ "\n\nRESOURCES:\n"
  ++ truncate_for_prompt (JVal.obj extracted) 15000
  ++ "\n\nReturn only JSON.\n"

/-- Python `(new_answer_payload or \x7b\x7d).get("answer")` (runner.py lines
286 and 316): a falsy value is replaced by the empty dict, then `.get`
raises `AttributeError` on a (truthy) non-dict. -/
def pyGetAnswer (nap : JVal) : Except String JVal :=
  if pyTruthy nap then
    match nap with
    | JVal.obj kvs => .ok (optToNull (jGet kvs "answer"))
    | _ => .error "AttributeError: object has no attribute get"
  else .ok JVal.null

/-! ## The submission state machine (runner.py lines 178-321) -/

/-- One submission POST performed by the cycle, with the data that gated
it: `attempt` is the value of `submit_attempts` for this POST, `tFirst`
is `first_post_time`, `tGate` is the clock reading the 180-second window
was checked against just before this POST. -/
structure PostEv where
  attempt : Nat
  tFirst : Int
  tGate : Int
  url : String
  body : JVal

/-- Events of one `run_job` execution, in program order: `susp` marks an
awaited network call (a cooperative suspension point), `post` marks a
submission POST performed (itself awaited, hence also a suspension
point), `wStatus`/`wResult` mark job-store writes. -/
inductive Ev where
  | susp
  | post (p : PostEv)
  | wStatus (s : String) (t : Int)
  | wResult (r : JVal) (t : Int)

/-- The submission POSTs recorded in a trace. -/
def postsOf (evs : List Ev) : List PostEv :=
  evs.filterMap (fun e => match e with | .post p => some p | _ => none)

/-- Whether an event is a cooperative suspension point. -/
def Ev.isSusp : Ev → Bool
  | .susp => true
  | .post _ => true
  | _ => false

/-- Whether an event is a job-store write. -/
def Ev.isWrite : Ev → Bool
  | .wStatus _ _ => true
  | .wResult _ _ => true
  | _ => false

/-- Whether an event writes the job result. -/
def Ev.isResultWrite : Ev → Bool
  | .wResult _ _ => true
  | _ => false

/-- The mutable local state of the submission loop (runner.py lines
179-199): `submitUrl` is `current_submit_url`, `answer` is
`current_answer` (Python `None` is `JVal.null`), `sourceUrl` is
`current_source_url` (a `JVal` because chaining assigns the grader's raw
`url` value to it), `parsed`/`resources`/`extracted`/`html` are the
pipeline variables the loop reassigns on chaining, `attempts` is
`submit_attempts`, `firstPost` is `first_post_time`, `lastResp` is
`submission_response`, and `tick` indexes the oracle. -/
structure CycleSt where
  submitUrl : Option String
  answer : JVal
  sourceUrl : JVal
  parsed : Parsed
  resources : List (String × ResInfo)
  extracted : List (String × JVal)
  html : String
  attempts : Nat
  firstPost : Option Int
  lastResp : JVal
  tick : Nat

/-- Outcome of one iteration of the `while True:` loop body:
`done` is a `break` (the submission cycle ends, `submission_response`
and the final tick are in the carried state), `next` is a `continue`
with the updated loop variables, `raise` is an exception the loop does
not catch, which propagates to the top-level handler of `run_job`. -/
inductive StepRes where
  | done (st : CycleSt)
  | next (st : CycleSt)
  | raise (e : String) (tick : Nat)

/-- The response-interpretation section of the loop body (runner.py lines
241-321), acting on the state `stR` in which `submission_response` has
just been set to the decoded grader response `v`.  Returns the
suspension events of any awaited calls it makes, and the iteration
outcome.  (The POST event itself is emitted by `loopStep`.) -/
def interpretResp (env : Env) (stR : CycleSt) (v : JVal) : List Ev × StepRes :=
  match v with
  | JVal.obj kvs =>
    -- `resp_json.get("correct") is True / is False` (lines 242, 296)
    match jGet kvs "correct" with
    | some (JVal.bool true) =>
      match jGet kvs "url" with
      | some nu =>
        if pyTruthy nu then
          -- chaining (lines 245-290): rerun the pipeline on the new URL;
          -- these raises are NOT caught by the loop
          -- (`parsed'` = `env.parse html' nu`, the extraction loop result and
          -- its final tick are written out in full below, standing for the
          -- local variables `parsed`, `extracted_texts` of the source)
          match env.render stR.tick nu with
          | .error e => ([Ev.susp], .raise e (stR.tick + 1))
          | .ok html' =>
            match env.fetch (stR.tick + 1) (env.parse html' nu) nu with
            | .error e => ([Ev.susp, Ev.susp], .raise e (stR.tick + 2))
            | .ok res' =>
              match env.llm (extractAll env (stR.tick + 2) res').2
                      (followPrompt nu (env.parse html' nu).questionText
                        (extractAll env (stR.tick + 2) res').1) with
              | .error e =>
                -- `LLM failed on follow-up` break (lines 283-285):
                -- note current_submit_url is NOT yet updated here
                ([Ev.susp, Ev.susp, Ev.susp],
                 .done { stR with sourceUrl := nu, parsed := env.parse html' nu, resources := res',
                                  extracted := (extractAll env (stR.tick + 2) res').1, html := html',
                                  tick := (extractAll env (stR.tick + 2) res').2 + 1,
                                  lastResp := JVal.str ("LLM failed on follow-up: " ++ e) })
              | .ok nap =>
                match pyGetAnswer nap with
                | .error ae => ([Ev.susp, Ev.susp, Ev.susp], .raise ae ((extractAll env (stR.tick + 2) res').2 + 1))
                | .ok ans' =>
                  -- update state and `continue` (lines 286-290)
                  ([Ev.susp, Ev.susp, Ev.susp],
                   .next { stR with sourceUrl := nu, parsed := env.parse html' nu, resources := res',
                                    extracted := (extractAll env (stR.tick + 2) res').1, html := html',
                                    answer := ans', submitUrl := (env.parse html' nu).submitUrl,
                                    tick := (extractAll env (stR.tick + 2) res').2 + 1 })
        else
          -- correct and falsy url → done (lines 291-293)
          ([], .done stR)
      | none =>
        -- correct and no url → done (lines 291-293)
        ([], .done stR)
    | some (JVal.bool false) =>
      -- incorrect → refine and resubmit (lines 296-318);
      -- `reason = resp_json.get("reason")` is inlined into the prompt
      match env.llm stR.tick (refinePrompt (optToNull (jGet kvs "reason")) stR.parsed.questionText stR.extracted) with
      | .error e =>
        ([Ev.susp],
         .done { stR with tick := stR.tick + 1,
                          lastResp := JVal.str ("LLM failed during refinement: " ++ e) })
      | .ok nap =>
        match pyGetAnswer nap with
        | .error ae => ([Ev.susp], .raise ae (stR.tick + 1))
        | .ok ans' =>
          -- update answer and `continue` to the same submit_url (317-318)
          ([Ev.susp], .next { stR with answer := ans', tick := stR.tick + 1 })
    | _ =>
      -- grader response not explicit → stop (lines 320-321)
      ([], .done stR)
  | _ =>
    -- `.get` on a non-dict JSON response raises (line 242)
    ([], .raise "AttributeError: object has no attribute get" stR.tick)

/-- One iteration of the `while True:` loop of `run_job` (runner.py lines
201-321): the events it emits (POSTs and awaited-call suspensions) and
its outcome. -/
def loopStep (env : Env) (email secret : JVal) (st : CycleSt) : List Ev × StepRes :=
  -- stop if no submit target (lines 202-204)
  if ¬ truthyS st.submitUrl then
    ([], .done { st with lastResp := JVal.str "no submit_url provided; no submission attempted" })
  else
    -- time gating (lines 207-212): set first_post_time on the first pass,
    -- then take a fresh clock reading for the window check
    let fp := st.firstPost.getD (env.time st.tick)
    let t1 := if st.firstPost.isNone then st.tick + 1 else st.tick
    let tGate := env.time t1
    let t2 := t1 + 1
    if 180 < tGate - fp then
      ([], .done { st with firstPost := some fp, tick := t2,
                           lastResp := JVal.str "stopped: exceeded 180 seconds window" })
    else
      -- attempt budget (lines 214-217)
      let att := st.attempts + 1
      if 10 < att then
        ([], .done { st with firstPost := some fp, tick := t2, attempts := att,
                             lastResp := JVal.str "stopped: reached 10 attempts" })
      else
        -- build and size-check the submission body (lines 219-222)
        let body := make_submission_body email secret st.sourceUrl st.answer
        if ¬ payload_size_ok body then
          ([], .done { st with firstPost := some fp, tick := t2, attempts := att,
                               lastResp := JVal.str "submission payload too large (>1MB)" })
        else
          -- POST to the grader (lines 224-229); awaited, hence a suspension
          let u := st.submitUrl.getD ""
          let pEv := Ev.post ⟨att, fp, tGate, u, body⟩
          match env.post t2 u body with
          | .error e =>
            ([pEv], .done { st with firstPost := some fp, tick := t2 + 1, attempts := att,
                                    lastResp := JVal.str ("submission error: " ++ e) })
          | .ok resp =>
            -- decode the grader response (lines 232-237)
            match resp.json with
            | none =>
              ([pEv], .done { st with firstPost := some fp, tick := t2 + 1, attempts := att,
                                      lastResp := JVal.str resp.text })
            | some v =>
              -- submission_response = resp_json (line 239), then interpret it
              let stR := { st with firstPost := some fp, tick := t2 + 1, attempts := att, lastResp := v }
              let r := interpretResp env stR v
              (pEv :: r.1, r.2)

/-- The `while True:` loop (runner.py lines 201-321) as iterated
`loopStep`, one fuel unit per iteration.  Every `continue` increments
`submit_attempts` and the loop stops at 10 attempts, so fuel
`12 - attempts` (see `subLoop`) always suffices and the fuel-exhaustion
branch is unreachable from `subLoop`.  Returns the events emitted, the
final tick, and either the final state (`break`) or a propagating
exception. -/
def subLoopF (env : Env) (email secret : JVal) : Nat → CycleSt → List Ev × Nat × Except String CycleSt
  | 0, st => ([], st.tick, .error "out of fuel")
  | fuel + 1, st =>
    match (loopStep env email secret st).2 with
    | .done stF => ((loopStep env email secret st).1, stF.tick, .ok stF)
    | .raise e t => ((loopStep env email secret st).1, t, .error e)
    | .next st' =>
      ((loopStep env email secret st).1 ++ (subLoopF env email secret fuel st').1,
       (subLoopF env email secret fuel st').2.1, (subLoopF env email secret fuel st').2.2)

/-- The submission loop with its canonical fuel: `12 - attempts` covers
the at most `10 - attempts` further iterations plus the terminating one. -/
def subLoop (env : Env) (email secret : JVal) (st : CycleSt) : List Ev × Nat × Except String CycleSt :=
  subLoopF env email secret (12 - st.attempts) st

/-! ## The orchestrator body and `run_job` (runner.py lines 89-348) -/

/-- The local variables of a normally-completed run that feed the success
result (runner.py lines 324-333), as they stand when the loop ends. -/
structure RunParts where
  parsed : Parsed
  resources : List (String × ResInfo)
  extracted : List (String × JVal)
  answer : JVal
  resp : JVal
  html : String

/-- The `url` read from the job payload (runner.py lines 109-110):
`raw_url = payload.get("url")`, absent or `None` giving `None`, any
other value being passed through `str()`. -/
def payloadUrl (pkvs : List (String × JVal)) : Option String :=
  match jGet pkvs "url" with
  | none => none
  | some JVal.null => none
  | some v => some (pyStr v)

/-- Normalise the planner result to a dict and read its `answer` key
(runner.py lines 175-176 and 198): a non-dict value `w` becomes
`\x7b"answer": w\x7d`, whose `answer` is `w` itself; a dict's absent
`answer` key gives `None`. -/
def normAnswer (v : JVal) : JVal :=
  match v with
  | JVal.obj kvs => optToNull (jGet kvs "answer")
  | w => w

/-- The submission-cycle state on entry to the loop (runner.py lines
179-199): the page pipeline has run once at tick `t` (render at `t`,
fetch at `t + 1`, extraction from `t + 2`), the planner returned `v`. -/
def initialCycleSt (env : Env) (u html : String) (res : List (String × ResInfo)) (v : JVal)
    (t : Nat) : CycleSt :=
  { submitUrl := (env.parse html (JVal.str u)).submitUrl,
    answer := normAnswer v,
    sourceUrl := JVal.str u, parsed := env.parse html (JVal.str u), resources := res,
    extracted := (extractAll env (t + 2) res).1, html := html, attempts := 0,
    firstPost := none, lastResp := JVal.null, tick := (extractAll env (t + 2) res).2 + 1 }

/-- Everything inside the top-level `try:` of `run_job` (runner.py lines
108-321): the page pipeline, the initial planning call and the
submission loop.  A `.error` is an exception that will be caught by the
catch-all handler. -/
def runBody (env : Env) (payload : JVal) (tick : Nat) : List Ev × Nat × Except String RunParts :=
  -- payload.get("url") raises AttributeError when payload is not a dict (line 109)
  match payload with
  | JVal.obj pkvs =>
    -- if not url: raise ValueError (lines 111-112)
    if ¬ truthyS (payloadUrl pkvs) then ([], tick, .error "Job payload missing \x27url\x27")
    else
      -- html = await load_page_html(url) (line 115); a suspension point
      match env.render tick (JVal.str ((payloadUrl pkvs).getD "")) with
      | .error e => ([Ev.susp], tick + 1, .error e)
      | .ok html =>
        -- parsed = parse_quiz_page(html, base_url=url) (line 116), then
        -- resources = await fetch_resources(parsed, base_url=url) (line 119)
        match env.fetch (tick + 1) (env.parse html (JVal.str ((payloadUrl pkvs).getD "")))
                (JVal.str ((payloadUrl pkvs).getD "")) with
        | .error e => ([Ev.susp, Ev.susp], tick + 2, .error e)
        | .ok res =>
          -- extract text/b64 per resource (lines 123-142), then the initial
          -- planner call (lines 169-172) whose raise is rewrapped
          match env.llm (extractAll env (tick + 2) res).2
                  (mainPrompt (env.parse html (JVal.str ((payloadUrl pkvs).getD ""))).questionText
                    (extractAll env (tick + 2) res).1) with
          | .error e =>
              ([Ev.susp, Ev.susp, Ev.susp], (extractAll env (tick + 2) res).2 + 1,
               .error ("LLM call failed: " ++ e))
          | .ok v =>
            -- the submission loop (lines 178-321) from the initial cycle state
            match (subLoop env (optToNull (jGet pkvs "email")) (optToNull (jGet pkvs "secret"))
                     (initialCycleSt env ((payloadUrl pkvs).getD "") html res v tick)).2.2 with
            | .error e =>
              (Ev.susp :: Ev.susp :: Ev.susp ::
                 (subLoop env (optToNull (jGet pkvs "email")) (optToNull (jGet pkvs "secret"))
                    (initialCycleSt env ((payloadUrl pkvs).getD "") html res v tick)).1,
               (subLoop env (optToNull (jGet pkvs "email")) (optToNull (jGet pkvs "secret"))
                  (initialCycleSt env ((payloadUrl pkvs).getD "") html res v tick)).2.1,
               .error e)
            | .ok stF =>
              (Ev.susp :: Ev.susp :: Ev.susp ::
                 (subLoop env (optToNull (jGet pkvs "email")) (optToNull (jGet pkvs "secret"))
                    (initialCycleSt env ((payloadUrl pkvs).getD "") html res v tick)).1,
               (subLoop env (optToNull (jGet pkvs "email")) (optToNull (jGet pkvs "secret"))
                  (initialCycleSt env ((payloadUrl pkvs).getD "") html res v tick)).2.1,
               .ok { parsed := stF.parsed, resources := stF.resources, extracted := stF.extracted,
                     answer := stF.answer, resp := stF.lastResp, html := stF.html })
  | _ => ([], tick, .error "AttributeError: object has no attribute get")

/-- The success result dict (runner.py lines 324-333), key for key. -/
def successResult (p : RunParts) (finishedAt : Int) : JVal :=
  JVal.obj [("success", JVal.bool true),
            ("parsed", p.parsed.toJ),
            ("resources", resourcesToJ p.resources),
            ("extracted_texts", JVal.obj p.extracted),
            ("answer_payload", JVal.obj [("answer", p.answer)]),
            ("submission_response", p.resp),
            ("html_preview", JVal.str (pyTake p.html 500)),
            ("finished_at", JVal.num finishedAt)]

/-- The catch-all failure result dict (runner.py lines 341-345). -/
def failureResult (err : String) (finishedAt : Int) : JVal :=
  JVal.obj [("success", JVal.bool false),
            ("error", JVal.str err),
            ("finished_at", JVal.num finishedAt)]

/-- `run_job` (runner.py lines 89-348) as the trace of events it emits
against the given store: nothing if the job record is absent, otherwise
the `running` status write, the body's suspensions and POSTs, and the
terminal result/status writes of either the normal-completion path or
the catch-all `except` handler.  Total: no exception escapes. -/
def run_job (env : Env) (store : Store) (jobId : String) : List Ev :=
  match get_job store jobId with
  | none => []
  | some job =>
    let e1 := Ev.wStatus "running" (env.time 0)
    let r := runBody env job.payload 1
    match r.2.2 with
    | .ok parts =>
      e1 :: r.1 ++ [Ev.wResult (successResult parts (env.time r.2.1)) (env.time (r.2.1 + 1)),
                    Ev.wStatus "done" (env.time (r.2.1 + 2))]
    | .error msg =>
      e1 :: r.1 ++ [Ev.wResult (failureResult msg (env.time r.2.1)) (env.time (r.2.1 + 1)),
                    Ev.wStatus "failed" (env.time (r.2.1 + 2))]

/-- Apply one trace event to the store: store writes perform the
corresponding `jobs.py` update, suspensions and POSTs leave it unchanged. -/
def applyEv (jobId : String) (s : Store) : Ev → Store
  | Ev.wStatus st t => set_job_status s jobId st t
  | Ev.wResult r t => set_job_result s jobId r t
  | _ => s

/-- The store as it stands after a prefix of the trace has executed. -/
def runStore (s : Store) (jobId : String) (evs : List Ev) : Store :=
  evs.foldl (applyEv jobId) s

/-! ## Loop-iteration facts -/

/-- `first_post_time` as fixed by the state entering an iteration: the
stored value, or the clock reading the iteration would store. -/
def cycFp (env : Env) (st : CycleSt) : Int :=
  st.firstPost.getD (env.time st.tick)

/-- The clock reading the 180-second window is checked against in the
iteration starting from `st`. -/
def gateTime (env : Env) (st : CycleSt) : Int :=
  env.time (if st.firstPost.isNone then st.tick + 1 else st.tick)

/-! ## Concrete instances used by the closed witness theorems -/

/-- A trivial collaborator environment: rendering and fetching succeed
with empty results, the planner returns `\x7b"answer": 42\x7d`, the grader
accepts on the first try, and the clock stands still. -/
def envW : Env :=
  { render := fun _ _ => .ok ""
    parse := fun _ _ => { questionText := "", submitUrl := some "http://s/submit", resources := JVal.arr [] }
    fetch := fun _ _ _ => .ok []
    extractPdf := fun _ _ => .error "boom"
    readText := fun _ _ => .ok "txt"
    readB64 := fun _ _ => .ok "b64"
    llm := fun _ _ => .ok (JVal.obj [("answer", JVal.num 42)])
    post := fun _ _ _ => .ok { json := some (JVal.obj [("correct", JVal.bool true)]), text := "ok" }
    time := fun _ => 0 }

/-- Like `envW` but every clock reading is 200 seconds. -/
def envSlowW : Env := { envW with time := fun _ => 200 }

/-- A parse result with a detected submission endpoint. -/
def parsedW : Parsed :=
  { questionText := "", submitUrl := some "http://s/submit", resources := JVal.arr [] }

/-- A cycle state that has already spent its whole attempt budget. -/
def stW10 : CycleSt :=
  { submitUrl := some "http://s/submit", answer := JVal.null, sourceUrl := JVal.null,
    parsed := parsedW, resources := [], extracted := [], html := "",
    attempts := 10, firstPost := some 0, lastResp := JVal.null, tick := 0 }

/-- A 1,000,000-character answer string, used to witness the
payload-size guard. -/
def bigAnswer : JVal := JVal.str (String.mk (List.replicate 1000000 'a'))

/-- A fresh cycle state whose queued answer is `bigAnswer`. -/
def stBig : CycleSt :=
  { submitUrl := some "http://s/submit", answer := bigAnswer, sourceUrl := JVal.null,
    parsed := parsedW, resources := [], extracted := [], html := "",
    attempts := 0, firstPost := some 0, lastResp := JVal.null, tick := 0 }

/-- A cycle state with no submission target. -/
def stNoTarget : CycleSt :=
  { submitUrl := none, answer := JVal.null, sourceUrl := JVal.null,
    parsed := parsedW, resources := [], extracted := [], html := "",
    attempts := 0, firstPost := none, lastResp := JVal.null, tick := 0 }

/-- A well-formed job payload. -/
def payloadW : JVal :=
  JVal.obj [("email", JVal.str "e@x"), ("secret", JVal.str "s"), ("url", JVal.str "http://q/1")]

/-- A store holding one queued job `"j"` with payload `payloadW`. -/
def storeW : Store := create_job [] "j" payloadW 0 0

/-- Like `envW` but page rendering always fails. -/
def envRF : Env := { envW with render := fun _ _ => .error "nav timeout" }

/-- Top-level keys of a JSON object, in order. -/
def jKeys : JVal → List String
  | JVal.obj kvs => kvs.map Prod.fst
  | _ => []

/-- The run parts produced by `envW` on `payloadW` (single accepted attempt). -/
def partsW6 : RunParts :=
  { parsed := { questionText := "", submitUrl := some "http://s/submit",
                resources := JVal.arr [] },
    resources := [], extracted := [], answer := JVal.num 42,
    resp := JVal.obj [("correct", JVal.bool true)], html := "" }

/-- Like `envW` but every planner call fails. -/
def envLF : Env := { envW with llm := fun _ _ => .error "bad JSON" }

/-- Like `envW` but plain-text and raw-byte reads fail. -/
def envXF : Env :=
  { envW with readText := fun _ _ => .error "io", readB64 := fun _ _ => .error "io2" }

/-- Loop entry state when the planner returned an empty JSON object. -/
def stC10 : CycleSt := initialCycleSt envW "http://q/1" "" [] (JVal.obj []) 1

theorem postsOf_post_cons (p : PostEv) (l : List Ev) : postsOf (Ev.post p :: l) = p :: postsOf l := by
  simp [postsOf]

theorem postsOf_susp_only (l : List Ev) (h : ∀ e ∈ l, e = Ev.susp) : postsOf l = [] := by
  induction l with
  | nil => rfl
  | cons e l ih =>
    rw [h e (List.mem_cons_self e l)]
    simp only [postsOf, List.filterMap_cons]
    exact ih (fun e he => h e (List.mem_cons_of_mem _ he))

theorem postsOf_append (a b : List Ev) : postsOf (a ++ b) = postsOf a ++ postsOf b := by
  simp [postsOf]

set_option maxHeartbeats 2000000 in
/-- Response interpretation emits no POSTs and no store writes (only
awaited-call suspensions), and a `continue` outcome keeps the attempt
counter and first-POST time of the state it was given. -/
theorem interpretResp_spec (env : Env) (stR : CycleSt) (v : JVal) :
    (∀ e ∈ (interpretResp env stR v).1, e = Ev.susp)
  ∧ (∀ st', (interpretResp env stR v).2 = StepRes.next st' →
       st'.attempts = stR.attempts ∧ st'.firstPost = stR.firstPost) := by
  generalize hr : interpretResp env stR v = r
  unfold interpretResp at hr
  repeat' split at hr
  all_goals subst hr
  all_goals refine ⟨?_, ?_⟩
  all_goals try (intro e he; simp at he; simp [he]; done)
  all_goals try (intro st' h; simp at h; done)
  all_goals try (intro st' h; injection h with h2; subst h2; exact ⟨rfl, rfl⟩)

theorem interpretResp_posts (env : Env) (stR : CycleSt) (v : JVal) :
    postsOf (interpretResp env stR v).1 = [] :=
  postsOf_susp_only _ (interpretResp_spec env stR v).1

theorem interpretResp_writes (env : Env) (stR : CycleSt) (v : JVal) :
    ∀ e ∈ (interpretResp env stR v).1, Ev.isWrite e = false := by
  intro e he
  rw [(interpretResp_spec env stR v).1 e he]
  rfl

theorem interpretResp_next (env : Env) (stR : CycleSt) (v : JVal) :
    ∀ st', (interpretResp env stR v).2 = StepRes.next st' →
      st'.attempts = stR.attempts ∧ st'.firstPost = stR.firstPost :=
  (interpretResp_spec env stR v).2

set_option maxHeartbeats 3000000 in
/-- One loop iteration either performs no POST and does not continue, or
performs exactly one POST, gated: the attempt number is within the
budget, the window check passed, and on `continue` the attempt counter
is incremented and the first-POST time is fixed.  In both cases the
iteration writes nothing to the job store. -/
theorem loopStep_spec (env : Env) (email secret : JVal) (st : CycleSt) :
    ((loopStep env email secret st).1 = []
       ∧ ∀ st', (loopStep env email secret st).2 ≠ StepRes.next st')
  ∨ (st.attempts + 1 ≤ 10
       ∧ gateTime env st - cycFp env st ≤ 180
       ∧ (∃ u b, postsOf (loopStep env email secret st).1
            = [⟨st.attempts + 1, cycFp env st, gateTime env st, u, b⟩])
       ∧ (∀ e ∈ (loopStep env email secret st).1, Ev.isWrite e = false)
       ∧ (∀ st', (loopStep env email secret st).2 = StepRes.next st' →
             st'.attempts = st.attempts + 1 ∧ st'.firstPost = some (cycFp env st))) := by
  unfold loopStep
  all_goals dsimp only
  iterate 10 (all_goals try split)
  all_goals dsimp only
  all_goals try (left; refine ⟨rfl, ?_⟩; intro st' h; simp at h; done)
  all_goals right
  all_goals refine ⟨?_, ?_, ⟨st.submitUrl.getD "", make_submission_body email secret st.sourceUrl st.answer, ?_⟩, ?_, ?_⟩
  all_goals try omega
  all_goals try (simp only [cycFp, gateTime]; split <;> first | omega | (simp_all; done))
  all_goals try (simp [postsOf, cycFp, gateTime, Ev.isWrite, *]; done)
  all_goals try (simp only [postsOf_post_cons, interpretResp_posts]; simp [cycFp, gateTime, *]; done)
  all_goals try (intro e he; rcases List.mem_cons.1 he with rfl | he2; exacts [rfl, interpretResp_writes env _ _ e he2])
  all_goals try (intro st' h; exact ⟨(interpretResp_next env _ _ st' h).1, (interpretResp_next env _ _ st' h).2⟩)

theorem cycFp_of_some (env : Env) (st : CycleSt) (x : Int) (h : st.firstPost = some x) :
    cycFp env st = x := by
  simp [cycFp, h]

/-! ## Loop-level invariants -/

/-- Unfolding: a loop iteration that breaks ends the cycle with its state. -/
theorem subLoopF_done (env : Env) (email secret : JVal) (fuel : Nat) (st stF : CycleSt)
    (h : (loopStep env email secret st).2 = StepRes.done stF) :
    subLoopF env email secret (fuel + 1) st = ((loopStep env email secret st).1, stF.tick, .ok stF) := by
  rw [subLoopF, h]

/-- Unfolding: a loop iteration whose exception is not caught ends the
cycle exceptionally. -/
theorem subLoopF_raise (env : Env) (email secret : JVal) (fuel : Nat) (st : CycleSt) (e : String) (t : Nat)
    (h : (loopStep env email secret st).2 = StepRes.raise e t) :
    subLoopF env email secret (fuel + 1) st = ((loopStep env email secret st).1, t, .error e) := by
  rw [subLoopF, h]

/-- Unfolding: a `continue` prepends this iteration's events to the rest
of the loop. -/
theorem subLoopF_next (env : Env) (email secret : JVal) (fuel : Nat) (st st' : CycleSt)
    (h : (loopStep env email secret st).2 = StepRes.next st') :
    subLoopF env email secret (fuel + 1) st
      = ((loopStep env email secret st).1 ++ (subLoopF env email secret fuel st').1,
         (subLoopF env email secret fuel st').2.1, (subLoopF env email secret fuel st').2.2) := by
  rw [subLoopF, h]

/-- The loop invariant: from a state with `attempts` submissions already
made, the loop POSTs at most `10 - attempts` more times, the attempt
numbers of its POSTs count up contiguously, every POST carries the
cycle's fixed first-POST time and was gated within the 180-second
window, and the loop never writes to the job store. -/
theorem subLoopF_spec (env : Env) (email secret : JVal) :
    ∀ fuel st,
      ((postsOf (subLoopF env email secret fuel st).1).map PostEv.attempt
          = List.range' (st.attempts + 1) (postsOf (subLoopF env email secret fuel st).1).length)
      ∧ (postsOf (subLoopF env email secret fuel st).1).length ≤ 10 - st.attempts
      ∧ (∀ p ∈ postsOf (subLoopF env email secret fuel st).1,
           p.tFirst = cycFp env st ∧ p.tGate - p.tFirst ≤ 180)
      ∧ (∀ e ∈ (subLoopF env email secret fuel st).1, Ev.isWrite e = false) := by
  intro fuel
  induction fuel with
  | zero => intro st; simp [subLoopF, postsOf]
  | succ fuel ih =>
    intro st
    cases hres : (loopStep env email secret st).2 with
    | done stF =>
      rw [subLoopF_done env email secret fuel st stF hres]
      dsimp only
      rcases loopStep_spec env email secret st with ⟨hevs, _⟩ | ⟨hatt, hgate, ⟨u, b, hposts⟩, hwr, _⟩
      · rw [hevs]; simp [postsOf]
      · refine ⟨?_, ?_, ?_, hwr⟩
        · rw [hposts]; simp [List.range'_one]
        · rw [hposts]; simp only [List.length_singleton]; omega
        · rw [hposts]
          intro p hp
          simp only [List.mem_singleton] at hp
          subst hp
          exact ⟨rfl, hgate⟩
    | raise e t =>
      rw [subLoopF_raise env email secret fuel st e t hres]
      dsimp only
      rcases loopStep_spec env email secret st with ⟨hevs, _⟩ | ⟨hatt, hgate, ⟨u, b, hposts⟩, hwr, _⟩
      · rw [hevs]; simp [postsOf]
      · refine ⟨?_, ?_, ?_, hwr⟩
        · rw [hposts]; simp [List.range'_one]
        · rw [hposts]; simp only [List.length_singleton]; omega
        · rw [hposts]
          intro p hp
          simp only [List.mem_singleton] at hp
          subst hp
          exact ⟨rfl, hgate⟩
    | next st' =>
      rw [subLoopF_next env email secret fuel st st' hres]
      dsimp only
      rcases loopStep_spec env email secret st with ⟨_, hnonext⟩ | ⟨hatt, hgate, ⟨u, b, hposts⟩, hwr, hnext⟩
      · exact absurd hres (hnonext st')
      · obtain ⟨hatt', hfp'⟩ := hnext st' hres
        obtain ⟨ih1, ih2, ih3, ih4⟩ := ih st'
        have hcf : cycFp env st' = cycFp env st := cycFp_of_some env st' _ hfp'
        refine ⟨?_, ?_, ?_, ?_⟩
        · simp only [postsOf_append, hposts, List.map_append, List.length_append,
                     List.map_cons, List.map_nil, List.singleton_append, List.length_cons]
          rw [ih1, hatt', List.range'_succ]
        · simp only [postsOf_append, hposts, List.length_append, List.length_singleton,
                     List.singleton_append, List.length_cons]
          omega
        · simp only [postsOf_append, hposts]
          intro p hp
          rcases List.mem_append.1 hp with hp1 | hp2
          · simp only [List.mem_singleton] at hp1
            subst hp1
            exact ⟨rfl, hgate⟩
          · obtain ⟨h1, h2⟩ := ih3 p hp2
            rw [hcf] at h1
            exact ⟨h1, h2⟩
        · intro e he
          rcases List.mem_append.1 he with he1 | he2
          · exact hwr e he1
          · exact ih4 e he2

theorem postsOf_susp_cons (l : List Ev) : postsOf (Ev.susp :: l) = postsOf l := by
  simp [postsOf]

set_option maxHeartbeats 2000000 in
/-- Body-level invariant: one run of the page pipeline plus submission
cycle POSTs at most 10 times, numbering its attempts 1, 2, ...; all
POSTs share one first-POST time, each was gated within the 180-second
window, and the body never writes to the job store. -/
theorem runBody_spec (env : Env) (payload : JVal) (tick : Nat) :
    ((postsOf (runBody env payload tick).1).map PostEv.attempt
        = List.range' 1 (postsOf (runBody env payload tick).1).length)
    ∧ (postsOf (runBody env payload tick).1).length ≤ 10
    ∧ (∀ p, p ∈ postsOf (runBody env payload tick).1 →
        ∀ q, q ∈ postsOf (runBody env payload tick).1 → p.tFirst = q.tFirst)
    ∧ (∀ p ∈ postsOf (runBody env payload tick).1, p.tGate - p.tFirst ≤ 180)
    ∧ (∀ e ∈ (runBody env payload tick).1, Ev.isWrite e = false) := by
  unfold runBody
  all_goals try dsimp only
  iterate 8 (all_goals try split)
  all_goals try dsimp only
  all_goals try (simp [postsOf, Ev.isWrite]; done)
  all_goals try
    (refine ⟨?_, ?_, ?_, ?_, ?_⟩
     · simp only [postsOf_susp_cons, subLoop]
       exact (subLoopF_spec env _ _ _ _).1
     · simp only [postsOf_susp_cons, subLoop]
       exact (subLoopF_spec env _ _ _ _).2.1
     · simp only [postsOf_susp_cons, subLoop]
       intro p hp q hq
       rw [((subLoopF_spec env _ _ _ _).2.2.1 p hp).1, ((subLoopF_spec env _ _ _ _).2.2.1 q hq).1]
     · simp only [postsOf_susp_cons, subLoop]
       intro p hp
       exact ((subLoopF_spec env _ _ _ _).2.2.1 p hp).2
     · simp only [subLoop]
       intro e he
       simp only [List.mem_cons] at he
       rcases he with rfl | rfl | rfl | he
       · rfl
       · rfl
       · rfl
       · exact (subLoopF_spec env _ _ _ _).2.2.2 e he)

/-- The POSTs of a whole run are exactly the POSTs of its body. -/
theorem run_job_posts_eq (env : Env) (store : Store) (jobId : String) (job : JobRec)
    (hj : get_job store jobId = some job) :
    postsOf (run_job env store jobId) = postsOf (runBody env job.payload 1).1 := by
  unfold run_job
  rw [hj]
  dsimp only
  cases hb : (runBody env job.payload 1).2.2 <;>
    simp [hb, postsOf, List.filterMap_append]

/-- An iteration entered with the attempt budget spent performs no POST
and breaks with the attempts-exhausted diagnostic. -/
theorem loopStep_attempts_exhausted (env : Env) (email secret : JVal) (st : CycleSt)
    (h1 : truthyS st.submitUrl = true)
    (h2 : ¬ 180 < gateTime env st - cycFp env st)
    (h3 : 10 ≤ st.attempts) :
    (loopStep env email secret st).1 = []
    ∧ ∃ stF, (loopStep env email secret st).2 = StepRes.done stF
        ∧ stF.lastResp = JVal.str "stopped: reached 10 attempts" := by
  simp only [gateTime, cycFp] at h2
  unfold loopStep
  dsimp only
  iterate 4 (all_goals try split)
  all_goals try (exfalso; simp_all; done)
  all_goals try (exfalso; omega)
  all_goals exact ⟨rfl, _, rfl, rfl⟩

/-- An iteration whose window check fails performs no POST and breaks
with the duration-exceeded diagnostic. -/
theorem loopStep_duration_exceeded (env : Env) (email secret : JVal) (st : CycleSt)
    (h1 : truthyS st.submitUrl = true)
    (h2 : 180 < gateTime env st - cycFp env st) :
    (loopStep env email secret st).1 = []
    ∧ ∃ stF, (loopStep env email secret st).2 = StepRes.done stF
        ∧ stF.lastResp = JVal.str "stopped: exceeded 180 seconds window" := by
  simp only [gateTime, cycFp] at h2
  unfold loopStep
  dsimp only
  iterate 3 (all_goals try split)
  all_goals try (exfalso; simp_all; done)
  all_goals exact ⟨rfl, _, rfl, rfl⟩

/-- C1: across a whole run — arbitrarily many chained pages included —
at most 10 submission POSTs are performed; the attempt numbers count up
contiguously from 1 (so chaining never resets the counter); every POST
shares the one first-attempt clock reading (chaining never resets the
cycle start) and was gated within 180 seconds of it; and a loop
iteration entered with an exhausted attempt or time budget performs no
POST and terminates the cycle with the corresponding diagnostic. -/
theorem c1_submission_budget (env : Env) (store : Store) (jobId : String) :
    ((postsOf (run_job env store jobId)).length ≤ 10
     ∧ ((postsOf (run_job env store jobId)).map PostEv.attempt
          = List.range' 1 (postsOf (run_job env store jobId)).length)
     ∧ (∀ p ∈ postsOf (run_job env store jobId), p.attempt ≤ 10 ∧ p.tGate - p.tFirst ≤ 180)
     ∧ (∀ p ∈ postsOf (run_job env store jobId), ∀ q ∈ postsOf (run_job env store jobId),
          p.tFirst = q.tFirst))
  ∧ (∀ email secret st fuel,
       truthyS st.submitUrl = true →
       ¬ 180 < gateTime env st - cycFp env st →
       10 ≤ st.attempts →
       (subLoopF env email secret (fuel + 1) st).1 = []
       ∧ ∃ stF, (subLoopF env email secret (fuel + 1) st).2.2 = Except.ok stF
           ∧ stF.lastResp = JVal.str "stopped: reached 10 attempts")
  ∧ (∀ email secret st fuel,
       truthyS st.submitUrl = true →
       180 < gateTime env st - cycFp env st →
       (subLoopF env email secret (fuel + 1) st).1 = []
       ∧ ∃ stF, (subLoopF env email secret (fuel + 1) st).2.2 = Except.ok stF
           ∧ stF.lastResp = JVal.str "stopped: exceeded 180 seconds window") := by
  refine ⟨?_, ?_, ?_⟩
  · -- the run-level POST facts, lifted from `runBody_spec`
    cases hj : get_job store jobId with
    | none =>
      have hrj : run_job env store jobId = [] := by unfold run_job; rw [hj]
      simp [hrj, postsOf]
    | some job =>
      have hpe := run_job_posts_eq env store jobId job hj
      obtain ⟨b1, b2, b3, b4, _⟩ := runBody_spec env job.payload 1
      rw [hpe]
      refine ⟨b2, b1, ?_, b3⟩
      intro p hp
      refine ⟨?_, b4 p hp⟩
      have hmem : p.attempt ∈ (postsOf (runBody env job.payload 1).1).map PostEv.attempt :=
        List.mem_map_of_mem PostEv.attempt hp
      rw [b1] at hmem
      have hb := (List.mem_range'_1.mp hmem).2
      omega
  · intro email secret st fuel h1 h2 h3
    obtain ⟨hevs, stF, hdone, hresp⟩ := loopStep_attempts_exhausted env email secret st h1 h2 h3
    rw [subLoopF_done env email secret fuel st stF hdone, hevs]
    exact ⟨rfl, stF, rfl, hresp⟩
  · intro email secret st fuel h1 h2
    obtain ⟨hevs, stF, hdone, hresp⟩ := loopStep_duration_exceeded env email secret st h1 h2
    rw [subLoopF_done env email secret fuel st stF hdone, hevs]
    exact ⟨rfl, stF, rfl, hresp⟩

/-- Witness for C1: a concrete exhausted state and a concrete slow clock
triggering each diagnostic, plus the POST bound for a concrete run. -/
theorem c1_submission_budget_witness :
    (truthyS stW10.submitUrl = true
     ∧ ¬ 180 < gateTime envW stW10 - cycFp envW stW10
     ∧ 10 ≤ stW10.attempts
     ∧ ((subLoopF envW JVal.null JVal.null 1 stW10).1 = []
        ∧ ∃ stF, (subLoopF envW JVal.null JVal.null 1 stW10).2.2 = Except.ok stF
            ∧ stF.lastResp = JVal.str "stopped: reached 10 attempts"))
  ∧ (truthyS stW10.submitUrl = true
     ∧ 180 < gateTime envSlowW stW10 - cycFp envSlowW stW10
     ∧ ((subLoopF envSlowW JVal.null JVal.null 1 stW10).1 = []
        ∧ ∃ stF, (subLoopF envSlowW JVal.null JVal.null 1 stW10).2.2 = Except.ok stF
            ∧ stF.lastResp = JVal.str "stopped: exceeded 180 seconds window"))
  ∧ (postsOf (run_job envW [] "j")).length ≤ 10 :=
  ⟨⟨by decide, by decide, by decide,
    (c1_submission_budget envW [] "j").2.1 JVal.null JVal.null stW10 0
      (by decide) (by decide) (by decide)⟩,
   ⟨by decide, by decide,
    (c1_submission_budget envSlowW [] "j").2.2 JVal.null JVal.null stW10 0
      (by decide) (by decide)⟩,
   (c1_submission_budget envW [] "j").1.1⟩

set_option maxHeartbeats 3000000 in
/-- C2: handling of a parsed grader response object.  (a) A strictly-true
correctness flag with a truthy follow-up URL reruns
render/parse/fetch/extract on that URL, re-plans via the follow-up
prompt, sets the submit target to the new page's detected endpoint, and
continues the loop (the budget checks run next).  (b) A strictly-true
flag with an absent or falsy URL ends the cycle successfully.  (c) A
strictly-false flag re-plans via the refinement prompt built from the
optional rejection reason and continues against the same submit_url
(only `answer` and the oracle tick change).  (d) Any other flag value
ends the cycle.  (e) The state handed to response interpretation has the
decoded object recorded as `submission_response`.  (f) A `continue`
outcome resumes the loop — and so the budget checks — from the updated
state. -/
theorem c2_verdict_branches (env : Env) (stR : CycleSt) (kvs : List (String × JVal)) :
    (∀ nu html' res' nap ans',
       jGet kvs "correct" = some (JVal.bool true) →
       jGet kvs "url" = some nu →
       pyTruthy nu = true →
       env.render stR.tick nu = Except.ok html' →
       env.fetch (stR.tick + 1) (env.parse html' nu) nu = Except.ok res' →
       env.llm (extractAll env (stR.tick + 2) res').2
           (followPrompt nu (env.parse html' nu).questionText (extractAll env (stR.tick + 2) res').1)
         = Except.ok nap →
       pyGetAnswer nap = Except.ok ans' →
       interpretResp env stR (JVal.obj kvs)
         = ([Ev.susp, Ev.susp, Ev.susp],
            StepRes.next { stR with sourceUrl := nu, parsed := env.parse html' nu, resources := res',
                                    extracted := (extractAll env (stR.tick + 2) res').1,
                                    html := html', answer := ans',
                                    submitUrl := (env.parse html' nu).submitUrl,
                                    tick := (extractAll env (stR.tick + 2) res').2 + 1 }))
  ∧ (jGet kvs "correct" = some (JVal.bool true) →
     (jGet kvs "url" = none ∨ ∃ nu, jGet kvs "url" = some nu ∧ pyTruthy nu = false) →
     interpretResp env stR (JVal.obj kvs) = ([], StepRes.done stR))
  ∧ (∀ nap ans',
       jGet kvs "correct" = some (JVal.bool false) →
       env.llm stR.tick
           (refinePrompt (optToNull (jGet kvs "reason")) stR.parsed.questionText stR.extracted)
         = Except.ok nap →
       pyGetAnswer nap = Except.ok ans' →
       interpretResp env stR (JVal.obj kvs)
         = ([Ev.susp], StepRes.next { stR with answer := ans', tick := stR.tick + 1 }))
  ∧ ((∀ b, jGet kvs "correct" ≠ some (JVal.bool b)) →
     interpretResp env stR (JVal.obj kvs) = ([], StepRes.done stR))
  ∧ (∀ email secret st resp,
       truthyS st.submitUrl = true →
       ¬ 180 < gateTime env st - cycFp env st →
       st.attempts + 1 ≤ 10 →
       payload_size_ok (make_submission_body email secret st.sourceUrl st.answer) = true →
       env.post ((if st.firstPost.isNone then st.tick + 1 else st.tick) + 1) (st.submitUrl.getD "")
           (make_submission_body email secret st.sourceUrl st.answer) = Except.ok resp →
       resp.json = some (JVal.obj kvs) →
       loopStep env email secret st
         = (Ev.post ⟨st.attempts + 1, cycFp env st, gateTime env st, st.submitUrl.getD "",
                     make_submission_body email secret st.sourceUrl st.answer⟩
              :: (interpretResp env
                    { st with firstPost := some (cycFp env st),
                              tick := (if st.firstPost.isNone then st.tick + 1 else st.tick) + 1 + 1,
                              attempts := st.attempts + 1, lastResp := JVal.obj kvs }
                    (JVal.obj kvs)).1,
            (interpretResp env
               { st with firstPost := some (cycFp env st),
                         tick := (if st.firstPost.isNone then st.tick + 1 else st.tick) + 1 + 1,
                         attempts := st.attempts + 1, lastResp := JVal.obj kvs }
               (JVal.obj kvs)).2))
  ∧ (∀ email secret fuel st st',
       (loopStep env email secret st).2 = StepRes.next st' →
       (subLoopF env email secret (fuel + 1) st).2.2 = (subLoopF env email secret fuel st').2.2) := by
  refine ⟨?_, ?_, ?_, ?_, ?_, ?_⟩
  · intro nu html' res' nap ans' hC hU hT hR hF hL hG
    unfold interpretResp
    iterate 8 (all_goals try split)
    all_goals simp_all
  · intro hC hU
    rcases hU with hU | ⟨nu, hU, hT⟩ <;>
      (unfold interpretResp
       iterate 8 (all_goals try split)
       all_goals simp_all)
  · intro nap ans' hC hL hG
    unfold interpretResp
    iterate 8 (all_goals try split)
    all_goals simp_all
  · intro hB
    have hBt := hB true
    have hBf := hB false
    unfold interpretResp
    iterate 8 (all_goals try split)
    all_goals simp_all
  · intro email secret st resp h1 h2 h3 h4 h5 h6
    simp only [gateTime, cycFp] at h2 ⊢
    unfold loopStep
    dsimp only
    iterate 6 (all_goals try split)
    all_goals try (exfalso; simp_all; done)
    all_goals try (exfalso; omega)
    all_goals simp_all
  · intro email secret fuel st st' h
    rw [subLoopF_next env email secret fuel st st' h]

/-- Witness for C2: the refinement branch and the success branch at
concrete grader responses. -/
theorem c2_verdict_branches_witness :
    (jGet [("correct", JVal.bool false), ("reason", JVal.str "off")] "correct"
        = some (JVal.bool false)
     ∧ envW.llm stW10.tick
         (refinePrompt (optToNull (jGet [("correct", JVal.bool false), ("reason", JVal.str "off")] "reason"))
           stW10.parsed.questionText stW10.extracted)
        = Except.ok (JVal.obj [("answer", JVal.num 42)])
     ∧ pyGetAnswer (JVal.obj [("answer", JVal.num 42)]) = Except.ok (JVal.num 42)
     ∧ interpretResp envW stW10 (JVal.obj [("correct", JVal.bool false), ("reason", JVal.str "off")])
        = ([Ev.susp], StepRes.next { stW10 with answer := JVal.num 42, tick := stW10.tick + 1 }))
  ∧ (jGet [("correct", JVal.bool true)] "correct" = some (JVal.bool true)
     ∧ interpretResp envW stW10 (JVal.obj [("correct", JVal.bool true)]) = ([], StepRes.done stW10)) :=
  ⟨⟨rfl, rfl, rfl,
    (c2_verdict_branches envW stW10 [("correct", JVal.bool false), ("reason", JVal.str "off")]).2.2.1
      (JVal.obj [("answer", JVal.num 42)]) (JVal.num 42) rfl rfl rfl⟩,
   ⟨rfl,
    (c2_verdict_branches envW stW10 [("correct", JVal.bool true)]).2.1 rfl (Or.inl rfl)⟩⟩

/-! ## Job-store and end-of-run facts -/

theorem get_job_storeSet_self (s : Store) (k : String) (r : JobRec) :
    get_job (storeSet s k r) k = some r := by
  induction s with
  | nil => simp [storeSet, get_job]
  | cons kv rest ih =>
    by_cases h : kv.1 = k
    · simp [storeSet, get_job, h]
    · simp only [storeSet]
      rw [if_neg h]
      simp [get_job, List.find?_cons, h]
      exact ih

theorem set_job_status_get (s : Store) (jobId : String) (r : JobRec) (status : String) (t : Int)
    (h : get_job s jobId = some r) :
    get_job (set_job_status s jobId status t) jobId
      = some { r with status := status, updatedAt := t } := by
  unfold set_job_status
  rw [h]
  exact get_job_storeSet_self _ _ _

theorem set_job_result_get (s : Store) (jobId : String) (r : JobRec) (result : JVal) (t : Int)
    (h : get_job s jobId = some r) :
    get_job (set_job_result s jobId result t) jobId
      = some { r with result := some result, updatedAt := t } := by
  unfold set_job_result
  rw [h]
  exact get_job_storeSet_self _ _ _

theorem foldl_applyEv_no_writes (jobId : String) (evs : List Ev) (s : Store)
    (h : ∀ e ∈ evs, Ev.isWrite e = false) :
    evs.foldl (applyEv jobId) s = s := by
  induction evs generalizing s with
  | nil => rfl
  | cons e rest ih =>
    have he : Ev.isWrite e = false := h e (List.mem_cons_self e rest)
    have hae : applyEv jobId s e = s := by
      cases e with
      | susp => rfl
      | post p => rfl
      | wStatus a b => simp [Ev.isWrite] at he
      | wResult a b => simp [Ev.isWrite] at he
    rw [List.foldl_cons, hae]
    exact ih _ (fun e he2 => h e (List.mem_cons_of_mem _ he2))

/-- The trace of a normally-completed run: the `running` write, the
body's events, then the success-result and `done` writes. -/
theorem run_job_ok_trace (env : Env) (store : Store) (jobId : String) (job : JobRec) (parts : RunParts)
    (hj : get_job store jobId = some job)
    (hb : (runBody env job.payload 1).2.2 = Except.ok parts) :
    run_job env store jobId
      = Ev.wStatus "running" (env.time 0)
        :: (runBody env job.payload 1).1
        ++ [Ev.wResult (successResult parts (env.time (runBody env job.payload 1).2.1))
              (env.time ((runBody env job.payload 1).2.1 + 1)),
            Ev.wStatus "done" (env.time ((runBody env job.payload 1).2.1 + 2))] := by
  unfold run_job
  rw [hj]
  dsimp only
  rw [hb]

/-- The trace of a run whose body raised: the `running` write, the
body's events, then the failure-result and `failed` writes. -/
theorem run_job_err_trace (env : Env) (store : Store) (jobId : String) (job : JobRec) (msg : String)
    (hj : get_job store jobId = some job)
    (hb : (runBody env job.payload 1).2.2 = Except.error msg) :
    run_job env store jobId
      = Ev.wStatus "running" (env.time 0)
        :: (runBody env job.payload 1).1
        ++ [Ev.wResult (failureResult msg (env.time (runBody env job.payload 1).2.1))
              (env.time ((runBody env job.payload 1).2.1 + 1)),
            Ev.wStatus "failed" (env.time ((runBody env job.payload 1).2.1 + 2))] := by
  unfold run_job
  rw [hj]
  dsimp only
  rw [hb]

/-- Final store state of a normally-completed run: status `done`, the
success result attached, all other record fields untouched. -/
theorem run_job_final_ok (env : Env) (store : Store) (jobId : String) (job : JobRec) (parts : RunParts)
    (hj : get_job store jobId = some job)
    (hb : (runBody env job.payload 1).2.2 = Except.ok parts) :
    get_job (runStore store jobId (run_job env store jobId)) jobId
      = some { status := "done", createdAt := job.createdAt, payload := job.payload,
               result := some (successResult parts (env.time (runBody env job.payload 1).2.1)),
               updatedAt := env.time ((runBody env job.payload 1).2.1 + 2) } := by
  rw [run_job_ok_trace env store jobId job parts hj hb]
  simp only [runStore, List.foldl_cons, List.foldl_append, List.foldl_nil]
  rw [foldl_applyEv_no_writes jobId _ _ (runBody_spec env job.payload 1).2.2.2.2]
  have h1 : get_job (applyEv jobId store (Ev.wStatus "running" (env.time 0))) jobId
      = some { job with status := "running", updatedAt := env.time 0 } :=
    set_job_status_get store jobId job "running" (env.time 0) hj
  have h2 := set_job_result_get _ jobId _
    (successResult parts (env.time (runBody env job.payload 1).2.1))
    (env.time ((runBody env job.payload 1).2.1 + 1)) h1
  have h3 := set_job_status_get _ jobId _ "done" (env.time ((runBody env job.payload 1).2.1 + 2)) h2
  exact h3

/-- Final store state of a run whose body raised: status `failed`, the
failure result attached. -/
theorem run_job_final_err (env : Env) (store : Store) (jobId : String) (job : JobRec) (msg : String)
    (hj : get_job store jobId = some job)
    (hb : (runBody env job.payload 1).2.2 = Except.error msg) :
    get_job (runStore store jobId (run_job env store jobId)) jobId
      = some { status := "failed", createdAt := job.createdAt, payload := job.payload,
               result := some (failureResult msg (env.time (runBody env job.payload 1).2.1)),
               updatedAt := env.time ((runBody env job.payload 1).2.1 + 2) } := by
  rw [run_job_err_trace env store jobId job msg hj hb]
  simp only [runStore, List.foldl_cons, List.foldl_append, List.foldl_nil]
  rw [foldl_applyEv_no_writes jobId _ _ (runBody_spec env job.payload 1).2.2.2.2]
  have h1 : get_job (applyEv jobId store (Ev.wStatus "running" (env.time 0))) jobId
      = some { job with status := "running", updatedAt := env.time 0 } :=
    set_job_status_get store jobId job "running" (env.time 0) hj
  have h2 := set_job_result_get _ jobId _
    (failureResult msg (env.time (runBody env job.payload 1).2.1))
    (env.time ((runBody env job.payload 1).2.1 + 1)) h1
  have h3 := set_job_status_get _ jobId _ "failed" (env.time ((runBody env job.payload 1).2.1 + 2)) h2
  exact h3

theorem utf8Len_append (a b : String) : utf8Len (a ++ b) = utf8Len a + utf8Len b := by
  simp [utf8Len, String.data_append]

theorem flatMap_escChar_replicate (n : Nat) :
    (List.replicate n 'a').flatMap jsonEscChar = List.replicate n 'a' := by
  induction n with
  | zero => rfl
  | succ n ih =>
    rw [List.replicate_succ, List.flatMap_cons, ih]
    rfl

theorem jsonEsc_replicate_a (n : Nat) :
    jsonEsc (String.mk (List.replicate n 'a')) = String.mk (List.replicate n 'a') := by
  unfold jsonEsc
  rw [show (String.mk (List.replicate n 'a')).data = List.replicate n 'a' from rfl,
      flatMap_escChar_replicate n]

theorem utf8Len_replicate_a (n : Nat) : utf8Len (String.mk (List.replicate n 'a')) = n := by
  have h : Char.utf8Size 'a' = 1 := by decide
  simp [utf8Len, List.map_replicate, h]

theorem bigAnswer_oversized :
    payload_size_ok (make_submission_body (JVal.str "e") (JVal.str "s") JVal.null bigAnswer) = false := by
  simp only [payload_size_ok, decide_eq_false_iff_not, not_lt]
  simp only [make_submission_body, bigAnswer, dumpJ, dumpObj, utf8Len_append,
             jsonEsc_replicate_a, utf8Len_replicate_a]
  omega

set_option maxHeartbeats 3000000 in
/-- C3: every submission-cycle failure ends the cycle with its
diagnostic, and never the job.  (1) An empty or absent submit target
ends the cycle at once with the no-submission diagnostic.  (2) A body of
1,000,000 serialized bytes or more is never POSTed: the iteration emits
no POST event and breaks with the size diagnostic.  (3) A transport
error on the POST breaks with the error diagnostic.  (4) A grader
response that does not parse as JSON breaks recording `resp.text`
verbatim.  (5) Whenever the body completes normally, the job record ends
with status `done` and the success result attached — whose `success`
field is `true` and whose `submission_response` field is the cycle's
last response or diagnostic (6). -/
theorem c3_cycle_failures (env : Env) (email secret : JVal) (st : CycleSt) :
    (truthyS st.submitUrl = false →
       loopStep env email secret st
         = ([], StepRes.done { st with lastResp := JVal.str "no submit_url provided; no submission attempted" }))
  ∧ (truthyS st.submitUrl = true →
     ¬ 180 < gateTime env st - cycFp env st →
     st.attempts + 1 ≤ 10 →
     payload_size_ok (make_submission_body email secret st.sourceUrl st.answer) = false →
       (loopStep env email secret st).1 = []
       ∧ ∃ stF, (loopStep env email secret st).2 = StepRes.done stF
           ∧ stF.lastResp = JVal.str "submission payload too large (>1MB)")
  ∧ (∀ e, truthyS st.submitUrl = true →
     ¬ 180 < gateTime env st - cycFp env st →
     st.attempts + 1 ≤ 10 →
     payload_size_ok (make_submission_body email secret st.sourceUrl st.answer) = true →
     env.post ((if st.firstPost.isNone then st.tick + 1 else st.tick) + 1) (st.submitUrl.getD "")
         (make_submission_body email secret st.sourceUrl st.answer) = Except.error e →
       ∃ stF, (loopStep env email secret st).2 = StepRes.done stF
           ∧ stF.lastResp = JVal.str ("submission error: " ++ e))
  ∧ (∀ resp, truthyS st.submitUrl = true →
     ¬ 180 < gateTime env st - cycFp env st →
     st.attempts + 1 ≤ 10 →
     payload_size_ok (make_submission_body email secret st.sourceUrl st.answer) = true →
     env.post ((if st.firstPost.isNone then st.tick + 1 else st.tick) + 1) (st.submitUrl.getD "")
         (make_submission_body email secret st.sourceUrl st.answer) = Except.ok resp →
     resp.json = none →
       ∃ stF, (loopStep env email secret st).2 = StepRes.done stF
           ∧ stF.lastResp = JVal.str resp.text)
  ∧ (∀ store jobId job parts,
       get_job store jobId = some job →
       (runBody env job.payload 1).2.2 = Except.ok parts →
       ∃ r, get_job (runStore store jobId (run_job env store jobId)) jobId = some r
         ∧ r.status = "done"
         ∧ r.result = some (successResult parts (env.time (runBody env job.payload 1).2.1)))
  ∧ (∀ parts T, ∃ l, successResult parts T = JVal.obj l
       ∧ jGet l "success" = some (JVal.bool true)
       ∧ jGet l "submission_response" = some parts.resp) := by
  refine ⟨?_, ?_, ?_, ?_, ?_, ?_⟩
  · intro h
    simp [loopStep, h]
  · intro h1 h2 h3 h4
    simp only [gateTime, cycFp] at h2
    unfold loopStep
    dsimp only
    iterate 5 (all_goals try split)
    all_goals try (exfalso; simp_all; done)
    all_goals try (exfalso; omega)
    all_goals exact ⟨rfl, _, rfl, rfl⟩
  · intro e h1 h2 h3 h4 h5
    simp only [gateTime, cycFp] at h2
    unfold loopStep
    dsimp only
    iterate 7 (all_goals try split)
    all_goals try (exfalso; simp_all; done)
    all_goals try (exfalso; omega)
    all_goals (refine ⟨_, rfl, ?_⟩; simp_all)
  · intro resp h1 h2 h3 h4 h5 h6
    simp only [gateTime, cycFp] at h2
    unfold loopStep
    dsimp only
    iterate 8 (all_goals try split)
    all_goals try (exfalso; simp_all; done)
    all_goals try (exfalso; omega)
    all_goals (refine ⟨_, rfl, ?_⟩; simp_all)
  · intro store jobId job parts hj hb
    exact ⟨_, run_job_final_ok env store jobId job parts hj hb, rfl, rfl⟩
  · intro parts T
    exact ⟨_, rfl, rfl, rfl⟩

/-- Witness for C3: a state with no submit target and a fresh state
queueing a 1,000,000-character answer. -/
theorem c3_cycle_failures_witness :
    (truthyS stNoTarget.submitUrl = false
     ∧ loopStep envW (JVal.str "e") (JVal.str "s") stNoTarget
         = ([], StepRes.done { stNoTarget with lastResp := JVal.str "no submit_url provided; no submission attempted" }))
  ∧ (truthyS stBig.submitUrl = true
     ∧ ¬ 180 < gateTime envW stBig - cycFp envW stBig
     ∧ stBig.attempts + 1 ≤ 10
     ∧ payload_size_ok (make_submission_body (JVal.str "e") (JVal.str "s") stBig.sourceUrl stBig.answer) = false
     ∧ ((loopStep envW (JVal.str "e") (JVal.str "s") stBig).1 = []
        ∧ ∃ stF, (loopStep envW (JVal.str "e") (JVal.str "s") stBig).2 = StepRes.done stF
            ∧ stF.lastResp = JVal.str "submission payload too large (>1MB)")) :=
  ⟨⟨by decide, (c3_cycle_failures envW (JVal.str "e") (JVal.str "s") stNoTarget).1 (by decide)⟩,
   ⟨by decide, by decide, by decide, bigAnswer_oversized,
    (c3_cycle_failures envW (JVal.str "e") (JVal.str "s") stBig).2.1 (by decide) (by decide) (by decide)
      bigAnswer_oversized⟩⟩

/-! ## Pipeline unfolding lemmas: `runBody` on the success prefix -/

theorem runBody_loop_ok (env : Env) (pkvs : List (String × JVal)) (t : Nat) (u html : String)
    (res : List (String × ResInfo)) (v : JVal) (stF : CycleSt)
    (hurl : payloadUrl pkvs = some u)
    (hu : truthyS (some u) = true)
    (hr : env.render t (JVal.str u) = Except.ok html)
    (hf : env.fetch (t + 1) (env.parse html (JVal.str u)) (JVal.str u) = Except.ok res)
    (hl : env.llm (extractAll env (t + 2) res).2
            (mainPrompt (env.parse html (JVal.str u)).questionText (extractAll env (t + 2) res).1)
          = Except.ok v)
    (hLoop : (subLoop env (optToNull (jGet pkvs "email")) (optToNull (jGet pkvs "secret"))
                (initialCycleSt env u html res v t)).2.2 = Except.ok stF) :
    runBody env (JVal.obj pkvs) t
      = (Ev.susp :: Ev.susp :: Ev.susp ::
           (subLoop env (optToNull (jGet pkvs "email")) (optToNull (jGet pkvs "secret"))
              (initialCycleSt env u html res v t)).1,
         (subLoop env (optToNull (jGet pkvs "email")) (optToNull (jGet pkvs "secret"))
            (initialCycleSt env u html res v t)).2.1,
         Except.ok { parsed := stF.parsed, resources := stF.resources, extracted := stF.extracted,
                     answer := stF.answer, resp := stF.lastResp, html := stF.html }) := by
  unfold runBody
  dsimp only
  rw [hurl]
  simp only [hu, not_true, if_false, Option.getD_some, hr, hf, hl, hLoop]

theorem runBody_loop_err (env : Env) (pkvs : List (String × JVal)) (t : Nat) (u html : String)
    (res : List (String × ResInfo)) (v : JVal) (e : String)
    (hurl : payloadUrl pkvs = some u)
    (hu : truthyS (some u) = true)
    (hr : env.render t (JVal.str u) = Except.ok html)
    (hf : env.fetch (t + 1) (env.parse html (JVal.str u)) (JVal.str u) = Except.ok res)
    (hl : env.llm (extractAll env (t + 2) res).2
            (mainPrompt (env.parse html (JVal.str u)).questionText (extractAll env (t + 2) res).1)
          = Except.ok v)
    (hLoop : (subLoop env (optToNull (jGet pkvs "email")) (optToNull (jGet pkvs "secret"))
                (initialCycleSt env u html res v t)).2.2 = Except.error e) :
    (runBody env (JVal.obj pkvs) t).2.2 = Except.error e := by
  unfold runBody
  dsimp only
  rw [hurl]
  simp only [hu, not_true, if_false, Option.getD_some, hr, hf, hl, hLoop]

theorem runBody_llm_fail (env : Env) (pkvs : List (String × JVal)) (t : Nat) (u html : String)
    (res : List (String × ResInfo)) (e : String)
    (hurl : payloadUrl pkvs = some u)
    (hu : truthyS (some u) = true)
    (hr : env.render t (JVal.str u) = Except.ok html)
    (hf : env.fetch (t + 1) (env.parse html (JVal.str u)) (JVal.str u) = Except.ok res)
    (hl : env.llm (extractAll env (t + 2) res).2
            (mainPrompt (env.parse html (JVal.str u)).questionText (extractAll env (t + 2) res).1)
          = Except.error e) :
    (runBody env (JVal.obj pkvs) t).2.2 = Except.error ("LLM call failed: " ++ e) := by
  unfold runBody
  dsimp only
  rw [hurl]
  simp only [hu, not_true, if_false, Option.getD_some, hr, hf, hl]

/-- C4: for every job id whose record exists, any failure raised by the body of
`run` — missing url in the payload, render failure, initial planner failure, or
any other error — is caught at the top level: the job record ends with status
"failed" and result `{success: false, error: <message>, finished_at}`, and
every run, failing or not, produces a complete trace ending in a result write
followed by a terminal status write (no exception escapes `run`). -/
theorem c4_top_level_catch (env : Env) (store : Store) (jobId : String) :
    (∀ job msg,
       get_job store jobId = some job →
       (runBody env job.payload 1).2.2 = Except.error msg →
       ∃ r, get_job (runStore store jobId (run_job env store jobId)) jobId = some r
         ∧ r.status = "failed"
         ∧ r.result = some (failureResult msg (env.time (runBody env job.payload 1).2.1)))
  ∧ (∀ msg T, failureResult msg T
       = JVal.obj [("success", JVal.bool false), ("error", JVal.str msg), ("finished_at", JVal.num T)])
  ∧ (∀ pkvs, truthyS (payloadUrl pkvs) = false →
       (runBody env (JVal.obj pkvs) 1).2.2 = Except.error "Job payload missing \x27url\x27")
  ∧ (∀ pkvs u e, payloadUrl pkvs = some u → truthyS (some u) = true →
       env.render 1 (JVal.str u) = Except.error e →
       (runBody env (JVal.obj pkvs) 1).2.2 = Except.error e)
  ∧ (∀ pkvs u html res e, payloadUrl pkvs = some u → truthyS (some u) = true →
       env.render 1 (JVal.str u) = Except.ok html →
       env.fetch 2 (env.parse html (JVal.str u)) (JVal.str u) = Except.ok res →
       env.llm (extractAll env 3 res).2
           (mainPrompt (env.parse html (JVal.str u)).questionText (extractAll env 3 res).1)
         = Except.error e →
       (runBody env (JVal.obj pkvs) 1).2.2 = Except.error ("LLM call failed: " ++ e))
  ∧ (∀ job, get_job store jobId = some job →
       ∃ evs r t1 s t2, run_job env store jobId
           = Ev.wStatus "running" (env.time 0) :: evs ++ [Ev.wResult r t1, Ev.wStatus s t2]
         ∧ (s = "done" ∨ s = "failed")) := by
  refine ⟨?_, ?_, ?_, ?_, ?_, ?_⟩
  · intro job msg hj hb
    exact ⟨_, run_job_final_err env store jobId job msg hj hb, rfl, rfl⟩
  · intro msg T
    rfl
  · intro pkvs h
    unfold runBody
    dsimp only
    simp [h]
  · intro pkvs u e hurl hu hrE
    unfold runBody
    dsimp only
    rw [hurl]
    simp only [hu, not_true, if_false, Option.getD_some, hrE]
  · intro pkvs u html res e hurl hu hr hf hlE
    exact runBody_llm_fail env pkvs 1 u html res e hurl hu hr hf hlE
  · intro job hj
    cases hb : (runBody env job.payload 1).2.2 with
    | ok parts =>
      exact ⟨_, _, _, _, _, run_job_ok_trace env store jobId job parts hj hb, Or.inl rfl⟩
    | error msg =>
      exact ⟨_, _, _, _, _, run_job_err_trace env store jobId job msg hj hb, Or.inr rfl⟩

/-- Witness for C4: a concrete store with one job and an environment whose page
render fails; the job ends failed with the failure result recorded. -/
theorem c4_top_level_catch_witness :
    (get_job storeW "j" = some ⟨"queued", 0, payloadW, none, 0⟩
     ∧ (runBody envRF payloadW 1).2.2 = Except.error "nav timeout")
  ∧ (∃ r, get_job (runStore storeW "j" (run_job envRF storeW "j")) "j" = some r
       ∧ r.status = "failed"
       ∧ r.result = some (failureResult "nav timeout" (envRF.time (runBody envRF payloadW 1).2.1))) :=
  ⟨⟨rfl, rfl⟩,
   (c4_top_level_catch envRF storeW "j").1 ⟨"queued", 0, payloadW, none, 0⟩ "nav timeout" rfl rfl⟩

theorem get_job_storeSet_other (s : Store) (k k2 : String) (r : JobRec) (h : k2 ≠ k) :
    get_job (storeSet s k r) k2 = get_job s k2 := by
  induction s with
  | nil => simp [storeSet, get_job, Ne.symm h]
  | cons kv rest ih =>
    by_cases hk : kv.1 = k
    · simp only [storeSet, if_pos hk, get_job, List.find?_cons]
      rw [show (decide (k = k2)) = false by simp [Ne.symm h],
          show (decide (kv.1 = k2)) = false by simp [hk, Ne.symm h]]
    · simp only [storeSet, if_neg hk, get_job, List.find?_cons]
      cases hd : decide (kv.1 = k2) with
      | true => rfl
      | false => exact ih

/-- C5 counterexample: `create_job` does NOT fail with `DuplicateId` when the id
already exists — jobs.py line 8 is a plain dict assignment, so the existing
record for `"j"` is silently overwritten with the fresh queued record. -/
theorem c5_duplicate_id_overwrites :
    get_job storeW "j" = some ⟨"queued", 0, payloadW, none, 0⟩
    ∧ create_job storeW "j" (JVal.str "other") 5 6
        = [("j", ⟨"queued", 5, JVal.str "other", none, 6⟩)]
    ∧ get_job (create_job storeW "j" (JVal.str "other") 5 6) "j"
        = some ⟨"queued", 5, JVal.str "other", none, 6⟩ :=
  ⟨rfl, rfl, rfl⟩

/-- C5 (amended): `create_job id payload` always succeeds, installing a record
with status "queued", the given payload, a null result and the two `time.time()`
timestamps — overwriting any existing record for `id` — and leaves every other
id's record unchanged. -/
theorem c5_create_job_amended (s : Store) (jobId : String) (p : JVal) (t1 t2 : Int) :
    get_job (create_job s jobId p t1 t2) jobId
      = some ⟨"queued", t1, p, none, t2⟩
    ∧ (∀ k, k ≠ jobId → get_job (create_job s jobId p t1 t2) k = get_job s k) :=
  ⟨get_job_storeSet_self s jobId _,
   fun k hk => get_job_storeSet_other s jobId k _ hk⟩

/-- Witness for the amended C5 at a concrete store, new id `"j2"`. -/
theorem c5_create_job_amended_witness :
    (get_job (create_job storeW "j2" (JVal.str "p") 3 4) "j2"
       = some ⟨"queued", 3, JVal.str "p", none, 4⟩)
    ∧ ("j" ≠ "j2"
       ∧ get_job (create_job storeW "j2" (JVal.str "p") 3 4) "j" = get_job storeW "j") :=
  ⟨(c5_create_job_amended storeW "j2" (JVal.str "p") 3 4).1,
   by decide,
   (c5_create_job_amended storeW "j2" (JVal.str "p") 3 4).2 "j" (by decide)⟩

/-- C6 counterexample: the success result written on normal completion has
keys success/parsed/resources/extracted_texts/answer_payload/
submission_response/html_preview/finished_at — not the claimed list with a
bare `answer` field and no `html_preview` (runner.py lines 324-333 wrap the
answer as `{"answer": current_answer}` under `answer_payload` and add
`html_preview`). -/
theorem c6_success_keys_counterexample :
    jKeys (successResult partsW6 0)
      = ["success", "parsed", "resources", "extracted_texts", "answer_payload",
         "submission_response", "html_preview", "finished_at"]
    ∧ jKeys (successResult partsW6 0)
      ≠ ["success", "parsed", "resources", "extracted_texts", "answer",
         "submission_response", "finished_at"] := by
  refine ⟨rfl, ?_⟩
  show ["success", "parsed", "resources", "extracted_texts", "answer_payload",
        "submission_response", "html_preview", "finished_at"]
     ≠ ["success", "parsed", "resources", "extracted_texts", "answer",
        "submission_response", "finished_at"]
  decide

/-- C6 (amended): on normal completion of a run the job ends with status
"done" and result exactly `successResult` — the eight fields success, parsed,
resources, extracted_texts, answer_payload, submission_response, html_preview,
finished_at, and no others. -/
theorem c6_success_result_amended (env : Env) (store : Store) (jobId : String)
    (job : JobRec) (parts : RunParts)
    (hj : get_job store jobId = some job)
    (hb : (runBody env job.payload 1).2.2 = Except.ok parts) :
    ∃ r, get_job (runStore store jobId (run_job env store jobId)) jobId = some r
      ∧ r.status = "done"
      ∧ r.result = some (successResult parts (env.time (runBody env job.payload 1).2.1))
      ∧ jKeys (successResult parts (env.time (runBody env job.payload 1).2.1))
          = ["success", "parsed", "resources", "extracted_texts", "answer_payload",
             "submission_response", "html_preview", "finished_at"] :=
  ⟨_, run_job_final_ok env store jobId job parts hj hb, rfl, rfl, rfl⟩

/-- Witness for the amended C6: `envW` drives `payloadW` to a one-attempt
accepted submission; the final record is done with the eight-key result. -/
theorem c6_success_result_amended_witness :
    (get_job storeW "j" = some ⟨"queued", 0, payloadW, none, 0⟩
     ∧ (runBody envW payloadW 1).2.2 = Except.ok partsW6)
  ∧ (∃ r, get_job (runStore storeW "j" (run_job envW storeW "j")) "j" = some r
       ∧ r.status = "done"
       ∧ r.result = some (successResult partsW6 (envW.time (runBody envW payloadW 1).2.1))
       ∧ jKeys (successResult partsW6 (envW.time (runBody envW payloadW 1).2.1))
           = ["success", "parsed", "resources", "extracted_texts", "answer_payload",
              "submission_response", "html_preview", "finished_at"]) :=
  ⟨⟨rfl, rfl⟩,
   c6_success_result_amended envW storeW "j" ⟨"queued", 0, payloadW, none, 0⟩ partsW6 rfl rfl⟩

theorem isResultWrite_of_not_isWrite (e : Ev) (h : Ev.isWrite e = false) :
    Ev.isResultWrite e = false := by
  cases e with
  | susp => rfl
  | post p => rfl
  | wStatus a b => simp [Ev.isWrite] at h
  | wResult a b => simp [Ev.isWrite] at h

/-- C7: lifecycle of the job result.  For any job whose stored record has no
result yet, the run's trace is a `running` status write, then body events that
never touch the store, then exactly one result write immediately followed by
the terminal status write.  Hence at the initial observable point the record
is queued with no result (the hypotheses), at every cooperative suspension
point during the body the record reads `running` with result `none`, the final
record carries the terminal status together with the just-written result, and
the result is written exactly once in the whole trace. -/
theorem c7_result_lifecycle (env : Env) (store : Store) (jobId : String) (job : JobRec)
    (hj : get_job store jobId = some job) (hres : job.result = none) :
    ∃ body r1 t1 sF t2,
      run_job env store jobId
        = Ev.wStatus "running" (env.time 0) :: body ++ [Ev.wResult r1 t1, Ev.wStatus sF t2]
      ∧ (sF = "done" ∨ sF = "failed")
      ∧ (∀ e ∈ body, Ev.isWrite e = false)
      ∧ (∀ pre suf, body = pre ++ suf →
           ∃ rec, get_job (runStore store jobId (Ev.wStatus "running" (env.time 0) :: pre)) jobId
                    = some rec
             ∧ rec.status = "running" ∧ rec.result = none)
      ∧ (∃ rec, get_job (runStore store jobId (run_job env store jobId)) jobId = some rec
           ∧ rec.status = sF ∧ rec.result = some r1)
      ∧ (run_job env store jobId).countP Ev.isResultWrite = 1 := by
  have hw := (runBody_spec env job.payload 1).2.2.2.2
  have hpre : ∀ pre suf, (runBody env job.payload 1).1 = pre ++ suf →
      ∃ rec, get_job (runStore store jobId (Ev.wStatus "running" (env.time 0) :: pre)) jobId
               = some rec
        ∧ rec.status = "running" ∧ rec.result = none := by
    intro pre suf hsplit
    refine ⟨{ job with status := "running", updatedAt := env.time 0 }, ?_, rfl, hres⟩
    show get_job ((Ev.wStatus "running" (env.time 0) :: pre).foldl (applyEv jobId) store) jobId = _
    rw [List.foldl_cons]
    have hpw : ∀ e ∈ pre, Ev.isWrite e = false := by
      intro e he
      exact hw e (hsplit ▸ List.mem_append_left suf he)
    rw [foldl_applyEv_no_writes jobId pre _ hpw]
    exact set_job_status_get store jobId job "running" (env.time 0) hj
  have hcnt : ∀ (r1 : JVal) (t1 t2 : Int) (sF : String),
      (Ev.wStatus "running" (env.time 0)
         :: (runBody env job.payload 1).1 ++ [Ev.wResult r1 t1, Ev.wStatus sF t2]).countP
        Ev.isResultWrite = 1 := by
    intro r1 t1 t2 sF
    rw [List.countP_append, List.countP_cons]
    have hz : ((runBody env job.payload 1).1).countP Ev.isResultWrite = 0 := by
      rw [List.countP_eq_zero]
      intro e he
      simp only [isResultWrite_of_not_isWrite e (hw e he), Bool.false_eq_true, not_false_iff]
    rw [hz]
    rfl
  cases hb : (runBody env job.payload 1).2.2 with
  | ok parts =>
    have htr := run_job_ok_trace env store jobId job parts hj hb
    refine ⟨(runBody env job.payload 1).1, _, _, "done", _, htr, Or.inl rfl, hw, hpre, ?_, ?_⟩
    · exact ⟨_, run_job_final_ok env store jobId job parts hj hb, rfl, rfl⟩
    · rw [htr]
      exact hcnt _ _ _ _
  | error msg =>
    have htr := run_job_err_trace env store jobId job msg hj hb
    refine ⟨(runBody env job.payload 1).1, _, _, "failed", _, htr, Or.inr rfl, hw, hpre, ?_, ?_⟩
    · exact ⟨_, run_job_final_err env store jobId job msg hj hb, rfl, rfl⟩
    · rw [htr]
      exact hcnt _ _ _ _

/-- Witness for C7 on the concrete store `storeW` and environment `envW`. -/
theorem c7_result_lifecycle_witness :
    (get_job storeW "j" = some ⟨"queued", 0, payloadW, none, 0⟩
     ∧ JobRec.result ⟨"queued", 0, payloadW, none, 0⟩ = none)
  ∧ (∃ body r1 t1 sF t2,
      run_job envW storeW "j"
        = Ev.wStatus "running" (envW.time 0) :: body ++ [Ev.wResult r1 t1, Ev.wStatus sF t2]
      ∧ (sF = "done" ∨ sF = "failed")
      ∧ (∀ e ∈ body, Ev.isWrite e = false)
      ∧ (∀ pre suf, body = pre ++ suf →
           ∃ rec, get_job (runStore storeW "j" (Ev.wStatus "running" (envW.time 0) :: pre)) "j"
                    = some rec
             ∧ rec.status = "running" ∧ rec.result = none)
      ∧ (∃ rec, get_job (runStore storeW "j" (run_job envW storeW "j")) "j" = some rec
           ∧ rec.status = sF ∧ rec.result = some r1)
      ∧ (run_job envW storeW "j").countP Ev.isResultWrite = 1) :=
  ⟨⟨rfl, rfl⟩,
   c7_result_lifecycle envW storeW "j" ⟨"queued", 0, payloadW, none, 0⟩ rfl rfl⟩

/-- C8: planner (LLM) failures.  (1) If the initial planning call fails, the
body raises `LLM call failed: <e>` (runner.py lines 169-172) and the job ends
failed with that error in its failure result.  (2) If the planner fails inside
the refinement branch after a `correct: false` verdict (lines 311-315), the
iteration instead terminates the cycle with `LLM failed during refinement: <e>`
recorded as the last response — no raise.  (3) Any body that completes
normally leaves the job with status "done". -/
theorem c8_planner_failure (env : Env) (store : Store) (jobId : String) :
    (∀ job pkvs u html res e,
       get_job store jobId = some job → job.payload = JVal.obj pkvs →
       payloadUrl pkvs = some u → truthyS (some u) = true →
       env.render 1 (JVal.str u) = Except.ok html →
       env.fetch 2 (env.parse html (JVal.str u)) (JVal.str u) = Except.ok res →
       env.llm (extractAll env 3 res).2
           (mainPrompt (env.parse html (JVal.str u)).questionText (extractAll env 3 res).1)
         = Except.error e →
       ∃ r, get_job (runStore store jobId (run_job env store jobId)) jobId = some r
         ∧ r.status = "failed"
         ∧ r.result = some (failureResult ("LLM call failed: " ++ e)
             (env.time (runBody env job.payload 1).2.1)))
  ∧ (∀ kvs e stR,
       jGet kvs "correct" = some (JVal.bool false) →
       env.llm stR.tick
           (refinePrompt (optToNull (jGet kvs "reason")) stR.parsed.questionText stR.extracted)
         = Except.error e →
       interpretResp env stR (JVal.obj kvs)
         = ([Ev.susp],
            .done { stR with tick := stR.tick + 1,
                             lastResp := JVal.str ("LLM failed during refinement: " ++ e) }))
  ∧ (∀ job parts,
       get_job store jobId = some job →
       (runBody env job.payload 1).2.2 = Except.ok parts →
       ∃ r, get_job (runStore store jobId (run_job env store jobId)) jobId = some r
         ∧ r.status = "done") := by
  refine ⟨?_, ?_, ?_⟩
  · intro job pkvs u html res e hj hpay hurl hu hr hf hl
    have hb : (runBody env job.payload 1).2.2 = Except.error ("LLM call failed: " ++ e) := by
      rw [hpay]
      exact runBody_llm_fail env pkvs 1 u html res e hurl hu hr hf hl
    exact ⟨_, run_job_final_err env store jobId job _ hj hb, rfl, rfl⟩
  · intro kvs e stR hc hl
    unfold interpretResp
    dsimp only
    rw [hc]
    dsimp only
    rw [hl]
  · intro job parts hj hb
    exact ⟨_, run_job_final_ok env store jobId job parts hj hb, rfl⟩

/-- Witness for C8: `envLF` (planner always fails) drives the initial call to
job failure and the refinement branch to a recorded diagnostic, while `envW`
completes the job normally. -/
theorem c8_planner_failure_witness :
    (get_job storeW "j" = some ⟨"queued", 0, payloadW, none, 0⟩
     ∧ JVal.obj [("email", JVal.str "e@x"), ("secret", JVal.str "s"),
                 ("url", JVal.str "http://q/1")] = payloadW
     ∧ envLF.llm (extractAll envLF 3 []).2
         (mainPrompt (envLF.parse "" (JVal.str "http://q/1")).questionText
           (extractAll envLF 3 []).1) = Except.error "bad JSON")
  ∧ (∃ r, get_job (runStore storeW "j" (run_job envLF storeW "j")) "j" = some r
       ∧ r.status = "failed"
       ∧ r.result = some (failureResult "LLM call failed: bad JSON"
           (envLF.time (runBody envLF payloadW 1).2.1)))
  ∧ interpretResp envLF stNoTarget (JVal.obj [("correct", JVal.bool false)])
      = ([Ev.susp],
         .done { stNoTarget with tick := stNoTarget.tick + 1,
                                 lastResp := JVal.str "LLM failed during refinement: bad JSON" })
  ∧ (∃ r, get_job (runStore storeW "j" (run_job envW storeW "j")) "j" = some r
       ∧ r.status = "done") :=
  ⟨⟨rfl, rfl, rfl⟩,
   (c8_planner_failure envLF storeW "j").1 ⟨"queued", 0, payloadW, none, 0⟩
     [("email", JVal.str "e@x"), ("secret", JVal.str "s"), ("url", JVal.str "http://q/1")]
     "http://q/1" "" [] "bad JSON" rfl rfl rfl rfl rfl rfl rfl,
   (c8_planner_failure envLF storeW "j").2.1 [("correct", JVal.bool false)] "bad JSON"
     stNoTarget rfl rfl,
   (c8_planner_failure envW storeW "j").2.2 ⟨"queued", 0, payloadW, none, 0⟩ partsW6 rfl rfl⟩

/-- C9 (amended): a raise inside any of the three I/O extraction branches is
caught per-resource and recorded as `{"type": itype or "error", "error": <msg>}`
(runner.py lines 141-142 — the tag is the resource's own type when that is
truthy, "error" only as fallback); `extracted_texts` keeps exactly one entry
per fetched resource, in order, so extraction failure never aborts the job;
and the loop entry state hands the planner exactly the full extracted list. -/
theorem c9_extraction_errors (env : Env) :
    (∀ itype e, errEntry itype e
        = JVal.obj [("type", JVal.str (pyOrS itype "error")), ("error", JVal.str e)])
  ∧ (∀ tick info e, info.rtype = some "pdf" → truthyS info.path = true →
       env.extractPdf tick (info.path.getD "") = Except.error e →
       (extractOne env tick info).1 = errEntry info.rtype e)
  ∧ (∀ tick info e, (info.rtype = some "txt" ∨ info.rtype = some "csv") →
       truthyS info.path = true →
       env.readText tick (info.path.getD "") = Except.error e →
       (extractOne env tick info).1 = errEntry info.rtype e)
  ∧ (∀ tick info e, info.rtype ≠ some "pdf" → info.rtype ≠ some "txt" →
       info.rtype ≠ some "csv" → truthyS info.path = true →
       env.readB64 tick (info.path.getD "") = Except.error e →
       (extractOne env tick info).1 = errEntry info.rtype e)
  ∧ (∀ tick res, ((extractAll env tick res).1).map Prod.fst = res.map Prod.fst)
  ∧ (∀ u html res v t, (initialCycleSt env u html res v t).extracted
        = (extractAll env (t + 2) res).1) := by
  refine ⟨fun itype e => rfl, ?_, ?_, ?_, ?_, fun u html res v t => rfl⟩
  · intro tick info e h1 h2 he
    simp [extractOne, h1, h2, he]
  · intro tick info e h1 h2 he
    cases h1 with
    | inl h => simp [extractOne, h, h2, he]
    | inr h => simp [extractOne, h, h2, he]
  · intro tick info e h1 h2 h3 h4 he
    simp [extractOne, h1, h2, h3, h4, he]
  · intro tick res
    induction res generalizing tick with
    | nil => rfl
    | cons kv rest ih => simp [extractAll, ih]

/-- Witness for the amended C9: concrete failing pdf/csv/binary extractions
and a two-resource run keeping both keys. -/
theorem c9_extraction_errors_witness :
    (ResInfo.rtype ⟨some "pdf", some "/x", none⟩ = some "pdf"
     ∧ truthyS (ResInfo.path ⟨some "pdf", some "/x", none⟩) = true
     ∧ envW.extractPdf 0 "/x" = Except.error "boom"
     ∧ envXF.readText 0 "/x" = Except.error "io"
     ∧ envXF.readB64 0 "/x" = Except.error "io2")
  ∧ (extractOne envW 0 ⟨some "pdf", some "/x", none⟩).1 = errEntry (some "pdf") "boom"
  ∧ (extractOne envXF 0 ⟨some "csv", some "/x", none⟩).1 = errEntry (some "csv") "io"
  ∧ (extractOne envXF 0 ⟨none, some "/x", none⟩).1 = errEntry none "io2"
  ∧ ((extractAll envW 0 [("a", ⟨some "pdf", some "/x", none⟩), ("b", ⟨none, none, none⟩)]).1).map
       Prod.fst
      = ["a", "b"] :=
  ⟨⟨rfl, rfl, rfl, rfl, rfl⟩,
   (c9_extraction_errors envW).2.1 0 ⟨some "pdf", some "/x", none⟩ "boom" rfl rfl rfl,
   (c9_extraction_errors envXF).2.2.1 0 ⟨some "csv", some "/x", none⟩ "io" (Or.inr rfl) rfl rfl,
   (c9_extraction_errors envXF).2.2.2.1 0 ⟨none, some "/x", none⟩ "io2"
     (by decide) (by decide) (by decide) rfl rfl,
   (c9_extraction_errors envW).2.2.2.2.1 0
     [("a", ⟨some "pdf", some "/x", none⟩), ("b", ⟨none, none, none⟩)]⟩

/-- C9 counterexample: a failing pdf extraction is recorded with type tag
"pdf", not the claimed literal "error" — the error entry is
`{type: itype or "error", error}`, so the tag is "error" only when the
resource has no truthy type of its own. -/
theorem c9_error_type_counterexample :
    extractOne envW 0 ⟨some "pdf", some "/x", none⟩
      = (errEntry (some "pdf") "boom", 1)
    ∧ errEntry (some "pdf") "boom"
        = JVal.obj [("type", JVal.str "pdf"), ("error", JVal.str "boom")]
    ∧ ("pdf" : String) ≠ "error" :=
  ⟨rfl, rfl, by decide⟩

/-- C10: an unparseable planner reply (normalised to the empty JSON object by
`_safe_json_load`) or a reply object lacking an "answer" key yields a null
`current_answer`; the loop-entry state carries exactly that value, the
submission body embeds it under "answer", and an iteration whose gates pass
still performs its POST with that null-answer body — no validation rejects an
absent answer before submission. -/
theorem c10_absent_answer_submits_null (env : Env) (email secret : JVal) :
    (∀ kvs, jGet kvs "answer" = none → normAnswer (JVal.obj kvs) = JVal.null)
  ∧ normAnswer (JVal.obj []) = JVal.null
  ∧ (∀ u html res v t, (initialCycleSt env u html res v t).answer = normAnswer v)
  ∧ (∀ src, make_submission_body email secret src JVal.null
       = JVal.obj [("email", email), ("secret", secret), ("url", src), ("answer", JVal.null)])
  ∧ (∀ st, truthyS st.submitUrl = true →
       gateTime env st - cycFp env st ≤ 180 →
       st.attempts + 1 ≤ 10 →
       payload_size_ok (make_submission_body email secret st.sourceUrl st.answer) →
       postsOf (loopStep env email secret st).1
         = [⟨st.attempts + 1, cycFp env st, gateTime env st, st.submitUrl.getD "",
             make_submission_body email secret st.sourceUrl st.answer⟩]) := by
  refine ⟨?_, rfl, fun u html res v t => rfl, fun src => rfl, ?_⟩
  · intro kvs h
    simp [normAnswer, h, optToNull]
  · intro st h1 h2 h3 h4
    unfold loopStep
    dsimp only
    simp only [h1, not_true, if_false]
    rw [if_neg (by simp only [cycFp, gateTime] at h2; omega)]
    rw [if_neg (by omega : ¬ 10 < st.attempts + 1)]
    rw [if_neg (not_not_intro h4)]
    iterate 3 (all_goals try split)
    all_goals try (simp [postsOf, cycFp, gateTime]; done)
    all_goals try simp only [postsOf_post_cons, interpretResp_posts]
    all_goals simp_all [cycFp, gateTime, postsOf, Option.isNone_iff_eq_none]

/-- Witness for C10: with `envW` and an empty planner object the first
iteration POSTs a body whose answer field is null. -/
theorem c10_absent_answer_submits_null_witness :
    (jGet [("x", JVal.num 1)] "answer" = none
     ∧ truthyS stC10.submitUrl = true
     ∧ gateTime envW stC10 - cycFp envW stC10 ≤ 180
     ∧ stC10.attempts + 1 ≤ 10
     ∧ payload_size_ok
         (make_submission_body (JVal.str "e") (JVal.str "s") stC10.sourceUrl stC10.answer))
  ∧ normAnswer (JVal.obj [("x", JVal.num 1)]) = JVal.null
  ∧ stC10.answer = normAnswer (JVal.obj [])
  ∧ postsOf (loopStep envW (JVal.str "e") (JVal.str "s") stC10).1
      = [⟨stC10.attempts + 1, cycFp envW stC10, gateTime envW stC10, stC10.submitUrl.getD "",
          make_submission_body (JVal.str "e") (JVal.str "s") stC10.sourceUrl stC10.answer⟩] :=
  ⟨⟨rfl, rfl, by decide, by decide, by decide⟩,
   (c10_absent_answer_submits_null envW (JVal.str "e") (JVal.str "s")).1
     [("x", JVal.num 1)] rfl,
   rfl,
   (c10_absent_answer_submits_null envW (JVal.str "e") (JVal.str "s")).2.2.2.2 stC10
     rfl (by decide) (by decide) (by decide)⟩
